import Mathlib

/-
  Verification of the basketball game's physics core against its
  natural-language specification.

  The embedding follows the JavaScript sources:
  * Ball physics (sub-stepped projectile integration, AABB bounce
    resolution)            — src/unnamed/part_001 (class Ball)
  * Player axis-sequential collision resolution and stamina logic
                           — src/Player.js (class Player)
  * Ballistic shot solver  — src/Bot.js (Bot.calculateShotVelocity)

  Exact game arithmetic (JS doubles) is modelled by exact arithmetic:
  rationals for the discrete collision/stepping code, reals for the
  trigonometric ballistic solver.
-/

set_option maxHeartbeats 1000000

/-- A 3-component vector, mirroring THREE.Vector3 as used by the sources. -/
structure Vec3 (α : Type) where
  x : α
  y : α
  z : α
deriving DecidableEq, Repr

instance {α : Type} [Add α] : Add (Vec3 α) :=
  ⟨fun a b => ⟨a.x + b.x, a.y + b.y, a.z + b.z⟩⟩

instance {α : Type} [Sub α] : Sub (Vec3 α) :=
  ⟨fun a b => ⟨a.x - b.x, a.y - b.y, a.z - b.z⟩⟩

/-- THREE.Vector3.multiplyScalar. -/
def Vec3.scale {α : Type} [Mul α] (k : α) (v : Vec3 α) : Vec3 α :=
  ⟨k * v.x, k * v.y, k * v.z⟩

/-- THREE.Vector3.dot. -/
def Vec3.dot {α : Type} [Mul α] [Add α] (a b : Vec3 α) : α :=
  a.x * b.x + a.y * b.y + a.z * b.z

/-- The three coordinate axes; the sources use ad hoc string tags. -/
inductive Axis where
  | X
  | Y
  | Z
deriving DecidableEq, Repr

def Vec3.axisGet (v : Vec3 ℚ) : Axis → ℚ
  | Axis.X => v.x
  | Axis.Y => v.y
  | Axis.Z => v.z

def Vec3.setAxis (v : Vec3 ℚ) : Axis → ℚ → Vec3 ℚ
  | Axis.X, q => ⟨q, v.y, v.z⟩
  | Axis.Y, q => ⟨v.x, q, v.z⟩
  | Axis.Z, q => ⟨v.x, v.y, q⟩

/-- A world-space axis-aligned bounding box (THREE.Box3). -/
structure Box where
  bmin : Vec3 ℚ
  bmax : Vec3 ℚ
deriving DecidableEq, Repr

/-- THREE.Box3.intersectsBox: closed-interval overlap test on all axes. -/
def intersectsBox (a b : Box) : Prop :=
  a.bmin.x ≤ b.bmax.x ∧ b.bmin.x ≤ a.bmax.x ∧
  a.bmin.y ≤ b.bmax.y ∧ b.bmin.y ≤ a.bmax.y ∧
  a.bmin.z ≤ b.bmax.z ∧ b.bmin.z ≤ a.bmax.z

instance (a b : Box) : Decidable (intersectsBox a b) := by
  unfold intersectsBox; exact inferInstance

/-- Per-axis overlap `min(maxA,maxB) - max(minA,minB)` as computed in both
Ball.step and Player.resolveCollisions. -/
def overlapAxis (ax : Axis) (a b : Box) : ℚ :=
  min (a.bmax.axisGet ax) (b.bmax.axisGet ax) -
    max (a.bmin.axisGet ax) (b.bmin.axisGet ax)

/-- One coordinate of THREE.Box3.getCenter. -/
def boxCenterAxis (b : Box) (ax : Axis) : ℚ :=
  (b.bmin.axisGet ax + b.bmax.axisGet ax) / 2

/-- JS Math.sign. -/
def signQ (q : ℚ) : ℚ :=
  if 0 < q then 1 else if q < 0 then -1 else 0

/- ===================== Ball (src/unnamed/part_001) ===================== -/

/-- Ball.step: the ball's AABB is a cube of half-extent `radius = 0.15`
around a position. -/
def ballBoxAround (p : Vec3 ℚ) : Box :=
  ⟨⟨p.x - 0.15, p.y - 0.15, p.z - 0.15⟩, ⟨p.x + 0.15, p.y + 0.15, p.z + 0.15⟩⟩

/-- Ball.step lines 108-115: gravity (15.0) on y, then air drag (0.5)
on x and z. -/
def ballVelAfterForces (dt : ℚ) (v : Vec3 ℚ) : Vec3 ℚ :=
  ⟨v.x - v.x * 0.5 * dt, v.y - 15 * dt, v.z - v.z * 0.5 * dt⟩

/-- Ball.step lines 145-157: axis of least overlap, starting from y, then
preferring x, then z, exactly as the sequential min-tracking in the source. -/
def selectBallAxis (bb cb : Box) : Axis :=
  let ox := overlapAxis Axis.X bb cb
  let oy := overlapAxis Axis.Y bb cb
  let oz := overlapAxis Axis.Z bb cb
  if ox < oy then (if oz < ox then Axis.Z else Axis.X)
  else (if oz < oy then Axis.Z else Axis.Y)

/-- The contact normal vector built by Ball.step (`normal.set(sign,0,0)` etc.). -/
def axisUnit (ax : Axis) (s : ℚ) : Vec3 ℚ :=
  match ax with
  | Axis.X => ⟨s, 0, 0⟩
  | Axis.Y => ⟨0, s, 0⟩
  | Axis.Z => ⟨0, 0, s⟩

/-- Ball.step lines 136-203, the response to one intersecting collider:
push `potentialPos` out along the least-overlap axis on the side of the
ball's center, and if the velocity opposes the normal, reflect it, scale
by restitution 0.8, and apply friction 2.0 to x/z when `normal.y` of the
by-then mutated normal vector exceeds 0.5 in absolute value.
`bb` is the ball's AABB as computed once per sub-step (the source never
re-derives it inside the collider loop); `pp` is the current
`potentialPos`; `v` the current velocity. -/
def resolveBallCollision (dt : ℚ) (bb cb : Box) (pp v : Vec3 ℚ) :
    Vec3 ℚ × Vec3 ℚ :=
  let ax := selectBallAxis bb cb
  let o := overlapAxis ax bb cb
  let s := signQ (pp.axisGet ax - boxCenterAxis cb ax)
  let pp2 := pp.setAxis ax (pp.axisGet ax + o * s)
  let n := axisUnit ax s
  let d := v.dot n
  if d < 0 then
    -- `const reflection = normal.multiplyScalar(2 * dot)` mutates `normal`:
    -- the later `Math.abs(normal.y) > 0.5` friction test reads this
    -- mutated vector, not the unit normal.
    let reflection := Vec3.scale (2 * d) n
    let v1 := Vec3.scale 0.8 (v - reflection)
    if 0.5 < |reflection.y| then
      (pp2, ⟨v1.x - v1.x * 2 * dt, v1.y, v1.z - v1.z * 2 * dt⟩)
    else (pp2, v1)
  else (pp2, v)

/-- Ball.step: gravity and drag, candidate position, ball AABB computed once,
then the bounce response applied to every collider whose box intersects that
(never re-derived) AABB, the position mutating through the loop. -/
def ballStep (dt : ℚ) (cols : List Box) (p v : Vec3 ℚ) : Vec3 ℚ × Vec3 ℚ :=
  let v1 := ballVelAfterForces dt v
  let pp := p + Vec3.scale dt v1
  let bb := ballBoxAround pp
  cols.foldl
    (fun pv c =>
      if intersectsBox bb c then resolveBallCollision dt bb c pv.1 pv.2 else pv)
    (pp, v1)

/-- The ball's physics-relevant state; `owner` is the holding entity
(modelled by an id), `none` when the ball is free. -/
structure BallState where
  pos : Vec3 ℚ
  vel : Vec3 ℚ
  owner : Option ℕ
deriving DecidableEq, Repr

/-- Ball.step lifted to the ball state (the step never touches ownership). -/
def ballPhysStep (dt : ℚ) (cols : List Box) (s : BallState) : BallState :=
  let r := ballStep dt cols s.pos s.vel
  ⟨r.1, r.2, s.owner⟩

/-- Ball.update lines 92-95 floor safety: `reset()` puts the ball at
(0,5,0) with zero velocity and no owner when it fell below y = -10. -/
def ballFloorSafety (s : BallState) : BallState :=
  if s.pos.y < -10 then ⟨⟨0, 5, 0⟩, ⟨0, 0, 0⟩, none⟩ else s

/-- Ball.update lines 82-90, the sub-stepping while-loop: the sequence of
sub-step sizes `min(remainingTime, 0.01)` consumed from a remaining time
`r`, with explicit fuel (the loop itself has none; the theorems show the
fuel `⌈r / 0.01⌉` is enough for the loop to drain `r`). -/
def substeps : ℕ → ℚ → List ℚ
  | 0, _ => []
  | f + 1, r =>
    if 0 < r then min r (1/100) :: substeps f (r - min r (1/100)) else []

/-- Ball.update: held balls skip physics entirely; a free ball consumes the
frame delta in sub-steps and then undergoes the floor-safety check. -/
def ballUpdate (delta : ℚ) (cols : List Box) (s : BallState) : BallState :=
  if s.owner = none then
    ballFloorSafety
      ((substeps ⌈delta / (1/100 : ℚ)⌉₊ delta).foldl
        (fun t d => ballPhysStep d cols t) s)
  else s

/-- Ball.release lines 57-66: releasing an unowned ball returns
immediately; otherwise the passed velocity is copied in and the owner
cleared. -/
def ballRelease (s : BallState) (v : Vec3 ℚ) : BallState :=
  if s.owner = none then s else ⟨s.pos, v, none⟩

/- ===================== Player (src/Player.js) ===================== -/

/-- The player's kinematic state (camera position doubles as the
player position in the source). -/
structure PlayerState where
  pos : Vec3 ℚ
  vel : Vec3 ℚ
  onGround : Bool
deriving DecidableEq, Repr

/-- Player.resolveCollisions lines 282-285: the player's AABB has
half-width 0.3 on x/z and extends height 1.6 below the camera position. -/
def playerBoxOf (p : Vec3 ℚ) : Box :=
  ⟨⟨p.x - 0.3, p.y - 1.6, p.z - 0.3⟩, ⟨p.x + 0.3, p.y, p.z + 0.3⟩⟩

/-- Player.resolveCollisions lines 287-346, the body of the collider loop
for one collider: skip non-intersecting colliders and sub-1e-3 overlaps,
then hard-stop resolve on the axis currently being processed.  The source
re-derives the player box after each correction, which is equivalent to
computing it from the current position here. -/
def resolvePlayerCollider (axis : Axis) (cb : Box) (st : PlayerState) :
    PlayerState :=
  let pb := playerBoxOf st.pos
  if intersectsBox pb cb then
    let ox := overlapAxis Axis.X pb cb
    let oy := overlapAxis Axis.Y pb cb
    let oz := overlapAxis Axis.Z pb cb
    if |ox| < 1/1000 ∨ |oy| < 1/1000 ∨ |oz| < 1/1000 then st
    else
      match axis with
      | Axis.X =>
        if 0 < ox then
          let s := if st.vel.x ≠ 0 then -signQ st.vel.x
                   else signQ (st.pos.x - boxCenterAxis cb Axis.X)
          ⟨⟨st.pos.x + ox * s, st.pos.y, st.pos.z⟩,
           ⟨0, st.vel.y, st.vel.z⟩, st.onGround⟩
        else st
      | Axis.Z =>
        if 0 < oz then
          let s := if st.vel.z ≠ 0 then -signQ st.vel.z
                   else signQ (st.pos.z - boxCenterAxis cb Axis.Z)
          ⟨⟨st.pos.x, st.pos.y, st.pos.z + oz * s⟩,
           ⟨st.vel.x, st.vel.y, 0⟩, st.onGround⟩
        else st
      | Axis.Y =>
        if 0 < oy then
          if st.vel.y < 0 then
            ⟨⟨st.pos.x, st.pos.y + oy, st.pos.z⟩,
             ⟨st.vel.x, 0, st.vel.z⟩, true⟩
          else if 0 < st.vel.y then
            ⟨⟨st.pos.x, st.pos.y - oy, st.pos.z⟩,
             ⟨st.vel.x, 0, st.vel.z⟩, st.onGround⟩
          else
            ⟨⟨st.pos.x, st.pos.y + oy, st.pos.z⟩, st.vel, true⟩
        else st
  else st

/-- Player.resolveCollisions: the loop over the collider list for a
given movement axis. -/
def resolveCollisionsQ (cols : List Box) (axis : Axis) (st : PlayerState) :
    PlayerState :=
  cols.foldl (fun t c => resolvePlayerCollider axis c t) st

/-- Player.update lines 213-231: reset `onGround`, then apply the position
delta and resolve collisions once per axis, sequentially x, then z, then y,
followed by the fall-limit respawn. -/
def playerMovePhase (delta : ℚ) (cols : List Box) (st : PlayerState) :
    PlayerState :=
  let s0 : PlayerState := ⟨st.pos, st.vel, false⟩
  let s1 := resolveCollisionsQ cols Axis.X
    ⟨⟨s0.pos.x + s0.vel.x * delta, s0.pos.y, s0.pos.z⟩, s0.vel, s0.onGround⟩
  let s2 := resolveCollisionsQ cols Axis.Z
    ⟨⟨s1.pos.x, s1.pos.y, s1.pos.z + s1.vel.z * delta⟩, s1.vel, s1.onGround⟩
  let s3 := resolveCollisionsQ cols Axis.Y
    ⟨⟨s2.pos.x, s2.pos.y + s2.vel.y * delta, s2.pos.z⟩, s2.vel, s2.onGround⟩
  if s3.pos.y < -20 then ⟨⟨0, 5, 5⟩, ⟨0, 0, 0⟩, s3.onGround⟩ else s3

/-- The directional/sprint key flags read by Player.update. -/
structure InputState where
  isRunning : Bool
  moveForward : Bool
  moveBackward : Bool
  moveLeft : Bool
  moveRight : Bool
deriving DecidableEq, Repr

/-- Player.update line 164: any directional movement input held. -/
def anyMove (i : InputState) : Bool :=
  i.moveForward || i.moveBackward || i.moveLeft || i.moveRight

/-- Player.update lines 160-172, the stamina logic: returns the new
stamina value and the `usingSprint` flag.  Drain (rate 30/s, clamped at 0)
happens only when sprint is held, stamina is positive and a movement key is
down; the regen branch (rate 15/s, clamped at 60) is the else of the outer
condition; sprint held with positive stamina but no movement leaves the
stamina untouched. -/
def staminaStep (i : InputState) (stamina delta : ℚ) : ℚ × Bool :=
  if i.isRunning ∧ 0 < stamina then
    if anyMove i then
      let s1 := stamina - 30 * delta
      (if s1 < 0 then 0 else s1, true)
    else (stamina, false)
  else
    let s1 := stamina + 15 * delta
    (if 60 < s1 then 60 else s1, false)

/-- Player.update line 174: base speed 6.0 times the sprint multiplier 1.7
exactly when `usingSprint` was set. -/
def targetSpeedOf (usingSprint : Bool) : ℚ :=
  6 * (if usingSprint then 1.7 else 1)

/-- The push sign chosen by Player.resolveCollisions on each axis: on x/z
the opposite of the velocity sign when moving, else the side of the
player's center relative to the collider's center; on y, up when
descending or resting, down when ascending (lines 303-337). -/
def playerPushSign (axis : Axis) (cb : Box) (st : PlayerState) : ℚ :=
  match axis with
  | Axis.X => if st.vel.x ≠ 0 then -signQ st.vel.x
              else signQ (st.pos.x - boxCenterAxis cb Axis.X)
  | Axis.Z => if st.vel.z ≠ 0 then -signQ st.vel.z
              else signQ (st.pos.z - boxCenterAxis cb Axis.Z)
  | Axis.Y => if st.vel.y < 0 then 1 else if 0 < st.vel.y then -1 else 1

/- ============ Spec-side comparison definitions (claims C3, C9) ============ -/

/-- The bounce response exactly as claim C3 words it: least-overlap axis,
push to the ball-center side, and the velocity always reflected about the
unit normal, scaled by the restitution, with tangential damping exactly
when the unit normal satisfies `|normal.y| > 0.5`. -/
def specBounceC3 (dt : ℚ) (bb cb : Box) (pp v : Vec3 ℚ) : Vec3 ℚ × Vec3 ℚ :=
  let ax := selectBallAxis bb cb
  let o := overlapAxis ax bb cb
  let s := signQ (pp.axisGet ax - boxCenterAxis cb ax)
  let pp2 := pp.setAxis ax (pp.axisGet ax + o * s)
  let n := axisUnit ax s
  let v1 := Vec3.scale 0.8 (v - Vec3.scale (2 * Vec3.dot v n) n)
  if 0.5 < |n.y| then
    (pp2, ⟨v1.x - v1.x * 2 * dt, v1.y, v1.z - v1.z * 2 * dt⟩)
  else (pp2, v1)

/-- The stamina update exactly as claim C9 words it: drained at the fixed
rate while the sprint input is held AND a directional input is active,
regenerated at the fixed rate in every other case, bounded in [0, 60]. -/
def staminaSpecC9 (i : InputState) (stamina delta : ℚ) : ℚ :=
  if i.isRunning ∧ anyMove i then max 0 (stamina - 30 * delta)
  else min 60 (stamina + 15 * delta)

/- ===================== Bot (src/Bot.js) ===================== -/

/-- The horizontal XZ distance used by Bot.calculateShotVelocity
(`diffXZ.length()` with the y component zeroed). -/
noncomputable def xzDist (s t : Vec3 ℝ) : ℝ :=
  Real.sqrt ((t.x - s.x) ^ 2 + (t.z - s.z) ^ 2)

/-- Bot.calculateShotVelocity lines 180-214: closed-form ballistic solve at
a fixed launch angle (degrees), gravity 15 matching Ball.step.  Returns
`none` when the range-equation denominator term `x·tanθ - y` is ≤ 0.
THREE's `normalize` divides by `length() || 1`, hence the `len` guard. -/
noncomputable def calculateShotVelocity (startPos targetPos : Vec3 ℝ)
    (angleDeg : ℝ) : Option (Vec3 ℝ) :=
  let g : ℝ := 15
  let dx := targetPos.x - startPos.x
  let dy := targetPos.y - startPos.y
  let dz := targetPos.z - startPos.z
  let x := xzDist startPos targetPos
  let angle := angleDeg * (Real.pi / 180)
  let term1 := g * x ^ 2
  let term2 := 2 * Real.cos angle ^ 2
  let term3 := x * Real.tan angle - dy
  if term3 ≤ 0 then none
  else
    let v := Real.sqrt (term1 / (term2 * term3))
    let vH := v * Real.cos angle
    let vY := v * Real.sin angle
    let len := if x = 0 then 1 else x
    some ⟨dx / len * vH, vY, dz / len * vH⟩

/-- The output vector exactly as the spec describes it (§4.5): the XZ unit
direction from start to target scaled by `v·cosθ`, vertical component
`v·sinθ`, with `v = sqrt(g·x² / (2·cos²θ·(x·tanθ - y)))`. -/
noncomputable def specShotVector (s t : Vec3 ℝ) (angleDeg : ℝ) : Vec3 ℝ :=
  let a := angleDeg * (Real.pi / 180)
  let x := xzDist s t
  let v := Real.sqrt (15 * x ^ 2 /
    (2 * Real.cos a ^ 2 * (x * Real.tan a - (t.y - s.y))))
  ⟨(t.x - s.x) / x * (v * Real.cos a), v * Real.sin a,
   (t.z - s.z) / x * (v * Real.cos a)⟩

/-- One sub-step of the Projectile Stepper's gravity model alone
(Ball.step lines 108-118 with drag and collisions removed, as the
round-trip property prescribes): gravity 15 on the y velocity, then the
position advanced by the updated velocity. -/
noncomputable def gravityStep (dt : ℝ) (p v : Vec3 ℝ) : Vec3 ℝ × Vec3 ℝ :=
  let v1 : Vec3 ℝ := ⟨v.x, v.y - 15 * dt, v.z⟩
  (⟨p.x + v1.x * dt, p.y + v1.y * dt, p.z + v1.z * dt⟩, v1)

/-- Iterating the gravity model at the fixed 0.01 s sub-step size. -/
noncomputable def gravitySim (p v : Vec3 ℝ) : ℕ → Vec3 ℝ × Vec3 ℝ
  | 0 => (p, v)
  | n + 1 =>
    let pv := gravitySim p v n
    gravityStep (1/100) pv.1 pv.2

/-- Squared Euclidean distance between two points. -/
noncomputable def distSq (a b : Vec3 ℝ) : ℝ :=
  (a.x - b.x) ^ 2 + (a.y - b.y) ^ 2 + (a.z - b.z) ^ 2

/-- Continuous-time ballistic motion under the same gravity constant 15:
position after time `t` from start `s` with initial velocity `w`. -/
noncomputable def ballisticPos (s w : Vec3 ℝ) (t : ℝ) : Vec3 ℝ :=
  ⟨s.x + w.x * t, s.y + w.y * t - 15 * t ^ 2 / 2, s.z + w.z * t⟩

/- ===================== Shared helper lemmas ===================== -/

theorem substeps_of_nonpos (f : ℕ) (r : ℚ) (h : r ≤ 0) : substeps f r = [] := by
  cases f with
  | zero => rfl
  | succ n => simp [substeps, not_lt.2 h]

theorem ceil_residual_lt (r : ℚ) (h : 0 < r) :
    ⌈(r - min r (1/100)) / (1/100 : ℚ)⌉₊ < ⌈r / (1/100 : ℚ)⌉₊ := by
  have hpos : 0 < ⌈r / (1/100 : ℚ)⌉₊ := Nat.ceil_pos.2 (by positivity)
  rcases le_or_lt r (1/100) with hr | hr
  · rw [min_eq_left hr]
    simpa using hpos
  · rw [min_eq_right hr.le]
    have h1 : (1 : ℚ) < r / (1/100) := by
      rw [lt_div_iff₀ (by norm_num : (0:ℚ) < 1/100)]
      linarith
    have hge1 : 1 ≤ ⌈r / (1/100 : ℚ)⌉₊ := hpos
    have hle : ⌈(r - 1/100) / (1/100 : ℚ)⌉₊ ≤ ⌈r / (1/100 : ℚ)⌉₊ - 1 := by
      rw [Nat.ceil_le]
      push_cast [Nat.cast_sub hge1]
      have : (r - 1/100) / (1/100 : ℚ) = r / (1/100) - 1 := by ring
      rw [this]
      have := Nat.le_ceil (r / (1/100 : ℚ))
      linarith
    omega

theorem substeps_stable (f : ℕ) :
    ∀ r : ℚ, ⌈r / (1/100 : ℚ)⌉₊ ≤ f →
      substeps f r = substeps ⌈r / (1/100 : ℚ)⌉₊ r := by
  induction f using Nat.strong_induction_on with
  | _ f ih =>
    intro r hf
    by_cases hr : 0 < r
    · have hc1 : 0 < ⌈r / (1/100 : ℚ)⌉₊ := Nat.ceil_pos.2 (by positivity)
      obtain ⟨g, hg⟩ : ∃ g, ⌈r / (1/100 : ℚ)⌉₊ = g + 1 :=
        ⟨⌈r / (1/100 : ℚ)⌉₊ - 1, by omega⟩
      obtain ⟨f1, hf1⟩ : ∃ f1, f = f1 + 1 := ⟨f - 1, by omega⟩
      have hlt := ceil_residual_lt r hr
      have e1 : substeps f1 (r - min r (1/100)) =
          substeps ⌈(r - min r (1/100)) / (1/100 : ℚ)⌉₊ (r - min r (1/100)) :=
        ih f1 (by omega) _ (by omega)
      have e2 : substeps g (r - min r (1/100)) =
          substeps ⌈(r - min r (1/100)) / (1/100 : ℚ)⌉₊ (r - min r (1/100)) :=
        ih g (by omega) _ (by omega)
      rw [hf1, hg]
      simp only [substeps, if_pos hr]
      rw [e1, e2]
    · rw [substeps_of_nonpos f r (not_lt.1 hr),
        substeps_of_nonpos _ r (not_lt.1 hr)]

theorem substeps_length (f : ℕ) :
    ∀ r : ℚ, (substeps f r).length ≤ ⌈r / (1/100 : ℚ)⌉₊ := by
  induction f with
  | zero => intro r; simp [substeps]
  | succ n ih =>
    intro r
    by_cases hr : 0 < r
    · have hlt := ceil_residual_lt r hr
      have := ih (r - min r (1/100))
      simp only [substeps, if_pos hr, List.length_cons]
      omega
    · simp [substeps, hr]

theorem substeps_sum (f : ℕ) :
    ∀ r : ℚ, 0 ≤ r → ⌈r / (1/100 : ℚ)⌉₊ ≤ f → (substeps f r).sum = r := by
  induction f using Nat.strong_induction_on with
  | _ f ih =>
    intro r h0 hf
    rcases eq_or_lt_of_le h0 with h | hr
    · rw [substeps_of_nonpos f r h.symm.le]
      simp [← h]
    · have hc1 : 0 < ⌈r / (1/100 : ℚ)⌉₊ := Nat.ceil_pos.2 (by positivity)
      obtain ⟨f1, hf1⟩ : ∃ f1, f = f1 + 1 := ⟨f - 1, by omega⟩
      have hlt := ceil_residual_lt r hr
      have hres0 : (0:ℚ) ≤ r - min r (1/100) := by
        have : min r (1/100) ≤ r := min_le_left _ _
        linarith
      have e1 : (substeps f1 (r - min r (1/100))).sum = r - min r (1/100) :=
        ih f1 (by omega) _ hres0 (by omega)
      rw [hf1]
      simp only [substeps, if_pos hr, List.sum_cons]
      rw [e1]
      ring

/- ===================== Claim C7 ===================== -/

/-- Claim C7: the projectile update consumes the frame delta in sub-steps
of size `min(remaining, 0.01)`; the loop runs at most `⌈delta / 0.01⌉`
iterations (fuel beyond that ceiling changes nothing, i.e. the loop has
terminated by then, having consumed exactly the whole delta), and a zero
or negative delta executes no physics step at all. -/
theorem ballUpdate_substepping (delta : ℚ) :
    (∀ f, ⌈delta / (1/100 : ℚ)⌉₊ ≤ f →
      substeps f delta = substeps ⌈delta / (1/100 : ℚ)⌉₊ delta) ∧
    (substeps ⌈delta / (1/100 : ℚ)⌉₊ delta).length ≤ ⌈delta / (1/100 : ℚ)⌉₊ ∧
    (0 ≤ delta → (substeps ⌈delta / (1/100 : ℚ)⌉₊ delta).sum = delta) ∧
    (delta ≤ 0 → ∀ f, substeps f delta = []) :=
  ⟨fun f hf => substeps_stable f delta hf,
   substeps_length _ delta,
   fun h0 => substeps_sum _ delta h0 le_rfl,
   fun h f => substeps_of_nonpos f delta h⟩

/-- Witness for C7 at delta = 0.05 s (five full sub-steps; extra fuel is
idle) and at delta = -1 (no step executed). -/
theorem ballUpdate_substepping_witness :
    substeps 7 (1/20 : ℚ) = substeps ⌈(1/20 : ℚ) / (1/100)⌉₊ (1/20) ∧
    (substeps ⌈(1/20 : ℚ) / (1/100)⌉₊ (1/20)).sum = 1/20 ∧
    substeps 3 (-1 : ℚ) = [] :=
  ⟨(ballUpdate_substepping (1/20)).1 7 (by norm_num),
   (ballUpdate_substepping (1/20)).2.2.1 (by norm_num),
   (ballUpdate_substepping (-1)).2.2.2 (by norm_num) 3⟩

/- ===================== Claim C10 ===================== -/

/-- Claim C10: releasing the ball while it has no owner is a no-op — the
position, velocity and owner are all left unchanged and the passed
velocity is not copied in. -/
theorem ballRelease_noOwner (s : BallState) (v : Vec3 ℚ)
    (h : s.owner = none) : ballRelease s v = s := by
  simp [ballRelease, h]

/-- Witness for C10 at a concrete free-ball state. -/
theorem ballRelease_noOwner_witness :
    ballRelease ⟨⟨1, 2, 3⟩, ⟨4, 5, 6⟩, none⟩ ⟨9, 9, 9⟩ =
      ⟨⟨1, 2, 3⟩, ⟨4, 5, 6⟩, none⟩ :=
  ballRelease_noOwner _ _ rfl

/- ===================== Claim C9 ===================== -/

theorem ite_neg_clamp (q : ℚ) : (if q < 0 then (0:ℚ) else q) = max 0 q := by
  rcases lt_or_le q 0 with h | h
  · rw [if_pos h, max_eq_left h.le]
  · rw [if_neg (not_lt.2 h), max_eq_right h]

theorem ite_cap_clamp (q : ℚ) : (if (60:ℚ) < q then (60:ℚ) else q) = min 60 q := by
  rcases lt_or_le 60 q with h | h
  · rw [if_pos h, min_eq_left h.le]
  · rw [if_neg (not_lt.2 h), min_eq_right h]

/-- Claim C9 counterexample: sprint held, positive stamina, but no
directional input — the code leaves stamina at 30 for a 0.01 s frame,
while the claim demands regeneration to 30.15. -/
theorem stamina_counterexample :
    (staminaStep ⟨true, false, false, false, false⟩ 30 (1/100)).1 = 30 ∧
    staminaSpecC9 ⟨true, false, false, false, false⟩ 30 (1/100) = 603/20 ∧
    (staminaStep ⟨true, false, false, false, false⟩ 30 (1/100)).1 ≠
      staminaSpecC9 ⟨true, false, false, false, false⟩ 30 (1/100) := by
  have h1 : (staminaStep ⟨true, false, false, false, false⟩ 30 (1/100)).1 = 30 := by
    simp [staminaStep, anyMove]
  have h2 : staminaSpecC9 ⟨true, false, false, false, false⟩ 30 (1/100) = 603/20 := by
    simp only [staminaSpecC9, anyMove]
    norm_num [min_eq_right]
  exact ⟨h1, h2, by rw [h1, h2]; norm_num⟩

/-- Claim C9 (amended): stamina stays in [0, 60]; it is drained at 30/s
exactly while sprint is held, stamina is still positive AND a movement
input is active; it is regenerated at 15/s when sprint is not held or
stamina has hit 0; it is left unchanged when sprint is held with positive
stamina but no movement input; and the sprint multiplier is never applied
once stamina has reached 0. -/
theorem stamina_spec (i : InputState) (s delta : ℚ)
    (h0 : 0 ≤ s) (h60 : s ≤ 60) (hd : 0 ≤ delta) :
    (0 ≤ (staminaStep i s delta).1 ∧ (staminaStep i s delta).1 ≤ 60) ∧
    (i.isRunning = true → anyMove i = true → 0 < s →
      (staminaStep i s delta).1 = max 0 (s - 30 * delta)) ∧
    ((i.isRunning = false ∨ s ≤ 0) →
      (staminaStep i s delta).1 = min 60 (s + 15 * delta)) ∧
    (i.isRunning = true → anyMove i = false → 0 < s →
      (staminaStep i s delta).1 = s) ∧
    ((staminaStep i s delta).2 = true ↔
      i.isRunning = true ∧ anyMove i = true ∧ 0 < s) ∧
    (s ≤ 0 → targetSpeedOf (staminaStep i s delta).2 = 6) := by
  by_cases hrun : i.isRunning = true ∧ 0 < s
  · by_cases hmov : anyMove i = true
    · have hstep : staminaStep i s delta = (max 0 (s - 30 * delta), true) := by
        unfold staminaStep
        rw [if_pos ⟨hrun.1, hrun.2⟩, if_pos hmov]
        show (if s - 30 * delta < 0 then (0:ℚ) else s - 30 * delta, true) = _
        rw [ite_neg_clamp]
      rw [hstep]
      refine ⟨⟨le_max_left _ _, max_le (by norm_num) (by linarith)⟩,
        fun _ _ _ => rfl, ?_, ?_, ?_, ?_⟩
      · rintro (h | h)
        · rw [h] at hrun; exact absurd hrun.1 (by simp)
        · exact absurd hrun.2 (not_lt.2 h)
      · intro _ hm _; simp [hm] at hmov
      · simp [hrun.1, hrun.2, hmov]
      · intro h; exact absurd hrun.2 (not_lt.2 h)
    · have hstep : staminaStep i s delta = (s, false) := by
        simp [staminaStep, hrun.1, hrun.2, hmov]
      rw [hstep]
      refine ⟨⟨h0, h60⟩, ?_, ?_, fun _ _ _ => rfl, ?_, fun _ => by
        simp [targetSpeedOf]⟩
      · intro _ hm; exact absurd hm hmov
      · rintro (h | h)
        · rw [h] at hrun; exact absurd hrun.1 (by simp)
        · exact absurd hrun.2 (not_lt.2 h)
      · simp [hmov]
  · have hstep : staminaStep i s delta = (min 60 (s + 15 * delta), false) := by
      simp only [staminaStep]
      rw [if_neg ?_, ite_cap_clamp]
      exact fun hc => hrun ⟨by simpa using hc.1, hc.2⟩
    rw [hstep]
    refine ⟨⟨le_min (by norm_num) (by linarith), min_le_left _ _⟩,
      ?_, fun _ => rfl, ?_, ?_, fun _ => by simp [targetSpeedOf]⟩
    · intro h1 _ h3; exact absurd ⟨h1, h3⟩ hrun
    · intro h1 _ h3; exact absurd ⟨h1, h3⟩ hrun
    · simp only [Bool.false_eq_true, false_iff]
      intro hc; exact hrun ⟨hc.1, hc.2.2⟩

/-- Witness for C9: a sprinting, moving player at stamina 30 is drained for
a 0.01 s frame; a 0-stamina state yields the base target speed 6. -/
theorem stamina_spec_witness :
    (staminaStep ⟨true, true, false, false, false⟩ 30 (1/100)).1 =
      max 0 (30 - 30 * (1/100)) ∧
    targetSpeedOf (staminaStep ⟨true, true, false, false, false⟩ 0 (1/100)).2 = 6 :=
  ⟨(stamina_spec ⟨true, true, false, false, false⟩ 30 (1/100) (by norm_num)
      (by norm_num) (by norm_num)).2.1 rfl rfl (by norm_num),
   (stamina_spec ⟨true, true, false, false, false⟩ 0 (1/100) (by norm_num)
      (by norm_num) (by norm_num)).2.2.2.2.2 le_rfl⟩

/- ===================== Claim C6 ===================== -/

theorem Vec3.add_def (a b : Vec3 ℚ) :
    a + b = ⟨a.x + b.x, a.y + b.y, a.z + b.z⟩ := rfl

theorem Vec3.sub_def (a b : Vec3 ℚ) :
    a - b = ⟨a.x - b.x, a.y - b.y, a.z - b.z⟩ := rfl

/-- Claim C6 counterexample: the ball's bounce resolution has no 1e-3
touching threshold.  A free ball whose candidate AABB overlaps the top of
a unit-radius cube by 0.0006 < 1e-3 is still pushed out (position snapped
to y = 1.15) and its velocity still reflected (y velocity becomes +0.12
instead of the incoming -0.15). -/
theorem ball_epsilon_counterexample :
    0 < overlapAxis Axis.Y (ballBoxAround ⟨0, 1.1494, 0⟩)
        ⟨⟨-1, -1, -1⟩, ⟨1, 1, 1⟩⟩ ∧
    overlapAxis Axis.Y (ballBoxAround ⟨0, 1.1494, 0⟩)
        ⟨⟨-1, -1, -1⟩, ⟨1, 1, 1⟩⟩ < 1/1000 ∧
    (⟨0, 1.1494, 0⟩ : Vec3 ℚ) =
      (⟨0, 1.1509, 0⟩ : Vec3 ℚ) +
        Vec3.scale (1/100) (ballVelAfterForces (1/100) ⟨0, 0, 0⟩) ∧
    ballStep (1/100) [⟨⟨-1, -1, -1⟩, ⟨1, 1, 1⟩⟩] ⟨0, 1.1509, 0⟩ ⟨0, 0, 0⟩ ≠
      (⟨0, 1.1494, 0⟩, ballVelAfterForces (1/100) ⟨0, 0, 0⟩) := by
  refine ⟨?_, ?_, ?_, ?_⟩
  · norm_num [overlapAxis, ballBoxAround, Vec3.axisGet, min_def, max_def]
  · norm_num [overlapAxis, ballBoxAround, Vec3.axisGet, min_def, max_def]
  · norm_num [ballVelAfterForces, Vec3.scale, Vec3.add_def]
  · have heval :
        ballStep (1/100) [⟨⟨-1, -1, -1⟩, ⟨1, 1, 1⟩⟩] ⟨0, 1.1509, 0⟩ ⟨0, 0, 0⟩ =
          (⟨0, 1.15, 0⟩, ⟨0, 3/25, 0⟩) := by
      norm_num [ballStep, ballVelAfterForces, resolveBallCollision,
        selectBallAxis, overlapAxis, boxCenterAxis, signQ, axisUnit,
        ballBoxAround, intersectsBox, Vec3.axisGet, Vec3.setAxis, Vec3.dot,
        Vec3.scale, Vec3.add_def, Vec3.sub_def, min_def, max_def]
    rw [heval]
    norm_num [ballVelAfterForces, Prod.ext_iff]

/-- Claim C6 (amended, player side): the player's hard-stop resolution
skips a collider entirely — no position, velocity or grounded change —
whenever any of the three axis overlaps is below 1e-3 in absolute value. -/
theorem player_epsilonSkip (axis : Axis) (cb : Box) (st : PlayerState)
    (h : |overlapAxis Axis.X (playerBoxOf st.pos) cb| < 1/1000 ∨
         |overlapAxis Axis.Y (playerBoxOf st.pos) cb| < 1/1000 ∨
         |overlapAxis Axis.Z (playerBoxOf st.pos) cb| < 1/1000) :
    resolvePlayerCollider axis cb st = st := by
  by_cases h1 : intersectsBox (playerBoxOf st.pos) cb
  · simp only [resolvePlayerCollider]
    rw [if_pos h1, if_pos h]
  · simp only [resolvePlayerCollider]
    rw [if_neg h1]

/-- Witness for C6 (amended): a collider touching the player's box with a
0.0005 overlap on x is skipped. -/
theorem player_epsilonSkip_witness :
    resolvePlayerCollider Axis.X ⟨⟨0.2995, -1, -1⟩, ⟨1, 1, 1⟩⟩
      ⟨⟨0, 0, 0⟩, ⟨0, 0, 0⟩, false⟩ = ⟨⟨0, 0, 0⟩, ⟨0, 0, 0⟩, false⟩ :=
  player_epsilonSkip Axis.X ⟨⟨0.2995, -1, -1⟩, ⟨1, 1, 1⟩⟩
    ⟨⟨0, 0, 0⟩, ⟨0, 0, 0⟩, false⟩
    (Or.inl (by norm_num [overlapAxis, playerBoxOf, Vec3.axisGet, min_def,
      max_def, abs_lt]))

/- ===================== Claim C3 ===================== -/

theorem signQ_cases (q : ℚ) : signQ q = 1 ∨ signQ q = -1 ∨ signQ q = 0 := by
  unfold signQ; split_ifs <;> simp

theorem selectBallAxis_min (bb cb : Box) (a : Axis) :
    overlapAxis (selectBallAxis bb cb) bb cb ≤ overlapAxis a bb cb := by
  simp only [selectBallAxis]
  split_ifs with h1 h2 h3 <;> cases a <;> first | exact le_refl _ | linarith

/-- Claim C3 (amended): for every collider the bounce resolution (applied
by Ball.step exactly to the colliders whose AABB intersects the ball's)
selects the axis of least overlap among x, y, z as contact normal axis,
pushes the position out along that axis by the overlap on the side of the
ball's center relative to the collider's center, and — only when the
velocity opposes the normal (v·n < 0) — reflects the velocity about the
axis's unit normal scaled by the restitution 0.8; the extra tangential
x/z damping fires exactly when additionally the contact axis is vertical
and the normal speed exceeds 0.25 (the code tests `|normal.y| > 0.5` on
the normal vector previously mutated to `2·(v·n)·n`).  When 0 ≤ v·n the
velocity is left unchanged. -/
theorem ballBounce_resolution (dt : ℚ) (bb cb : Box) (pp v : Vec3 ℚ) :
    (∀ a : Axis, overlapAxis (selectBallAxis bb cb) bb cb ≤
        overlapAxis a bb cb) ∧
    (resolveBallCollision dt bb cb pp v).1 =
      pp.setAxis (selectBallAxis bb cb)
        (pp.axisGet (selectBallAxis bb cb) +
          overlapAxis (selectBallAxis bb cb) bb cb *
            signQ (pp.axisGet (selectBallAxis bb cb) -
              boxCenterAxis cb (selectBallAxis bb cb))) ∧
    (0 ≤ v.dot (axisUnit (selectBallAxis bb cb)
        (signQ (pp.axisGet (selectBallAxis bb cb) -
          boxCenterAxis cb (selectBallAxis bb cb)))) →
      (resolveBallCollision dt bb cb pp v).2 = v) ∧
    (∀ d, d = v.dot (axisUnit (selectBallAxis bb cb)
        (signQ (pp.axisGet (selectBallAxis bb cb) -
          boxCenterAxis cb (selectBallAxis bb cb)))) → d < 0 →
      (resolveBallCollision dt bb cb pp v).2 =
        (if selectBallAxis bb cb = Axis.Y ∧ d < -(1/4) then
          ⟨(Vec3.scale 0.8 (v - Vec3.scale (2 * d)
              (axisUnit (selectBallAxis bb cb)
                (signQ (pp.axisGet (selectBallAxis bb cb) -
                  boxCenterAxis cb (selectBallAxis bb cb)))))).x -
            (Vec3.scale 0.8 (v - Vec3.scale (2 * d)
              (axisUnit (selectBallAxis bb cb)
                (signQ (pp.axisGet (selectBallAxis bb cb) -
                  boxCenterAxis cb (selectBallAxis bb cb)))))).x * 2 * dt,
           (Vec3.scale 0.8 (v - Vec3.scale (2 * d)
              (axisUnit (selectBallAxis bb cb)
                (signQ (pp.axisGet (selectBallAxis bb cb) -
                  boxCenterAxis cb (selectBallAxis bb cb)))))).y,
           (Vec3.scale 0.8 (v - Vec3.scale (2 * d)
              (axisUnit (selectBallAxis bb cb)
                (signQ (pp.axisGet (selectBallAxis bb cb) -
                  boxCenterAxis cb (selectBallAxis bb cb)))))).z -
            (Vec3.scale 0.8 (v - Vec3.scale (2 * d)
              (axisUnit (selectBallAxis bb cb)
                (signQ (pp.axisGet (selectBallAxis bb cb) -
                  boxCenterAxis cb (selectBallAxis bb cb)))))).z * 2 * dt⟩
        else Vec3.scale 0.8 (v - Vec3.scale (2 * d)
          (axisUnit (selectBallAxis bb cb)
            (signQ (pp.axisGet (selectBallAxis bb cb) -
              boxCenterAxis cb (selectBallAxis bb cb))))))) := by
  refine ⟨selectBallAxis_min bb cb, ?_, ?_, ?_⟩
  · simp only [resolveBallCollision]
    split_ifs <;> rfl
  · intro h
    simp only [resolveBallCollision]
    rw [if_neg (not_lt.2 h)]
  · rintro d rfl hd
    simp only [resolveBallCollision]
    rw [if_pos hd]
    cases hax : selectBallAxis bb cb with
    | X =>
      rw [hax] at hd
      have hy : (Vec3.scale
          (2 * v.dot (axisUnit Axis.X
            (signQ (pp.axisGet Axis.X - boxCenterAxis cb Axis.X))))
          (axisUnit Axis.X
            (signQ (pp.axisGet Axis.X - boxCenterAxis cb Axis.X)))).y = 0 := by
        simp [Vec3.scale, axisUnit]
      rw [if_neg (by rw [hy]; norm_num), if_neg (by simp)]
    | Z =>
      rw [hax] at hd
      have hy : (Vec3.scale
          (2 * v.dot (axisUnit Axis.Z
            (signQ (pp.axisGet Axis.Z - boxCenterAxis cb Axis.Z))))
          (axisUnit Axis.Z
            (signQ (pp.axisGet Axis.Z - boxCenterAxis cb Axis.Z)))).y = 0 := by
        simp [Vec3.scale, axisUnit]
      rw [if_neg (by rw [hy]; norm_num), if_neg (by simp)]
    | Y =>
      rw [hax] at hd
      rcases signQ_cases (pp.axisGet Axis.Y - boxCenterAxis cb Axis.Y) with
        hs | hs | hs <;> rw [hs] at hd ⊢
      · -- s = 1
        have hy : (Vec3.scale (2 * v.dot (axisUnit Axis.Y 1))
            (axisUnit Axis.Y 1)).y = 2 * v.dot (axisUnit Axis.Y 1) := by
          simp [Vec3.scale, axisUnit]
        by_cases h4 : v.dot (axisUnit Axis.Y 1) < -(1/4)
        · rw [if_pos (by
              rw [hy, abs_of_neg (by linarith : 2 * v.dot (axisUnit Axis.Y 1) < 0)]
              linarith),
            if_pos ⟨rfl, h4⟩]
        · rw [if_neg (by
              rw [hy, abs_of_neg (by linarith : 2 * v.dot (axisUnit Axis.Y 1) < 0)]
              have := not_lt.1 h4
              intro hcon
              norm_num at hcon
              linarith),
            if_neg (by
              rintro ⟨-, hcon⟩
              exact h4 hcon)]
      · -- s = -1
        have hy : (Vec3.scale (2 * v.dot (axisUnit Axis.Y (-1)))
            (axisUnit Axis.Y (-1))).y =
              -(2 * v.dot (axisUnit Axis.Y (-1))) := by
          simp [Vec3.scale, axisUnit]
          try ring
        by_cases h4 : v.dot (axisUnit Axis.Y (-1)) < -(1/4)
        · rw [if_pos (by
              rw [hy, abs_of_pos (by linarith :
                (0:ℚ) < -(2 * v.dot (axisUnit Axis.Y (-1))))]
              linarith),
            if_pos ⟨rfl, h4⟩]
        · rw [if_neg (by
              rw [hy, abs_of_pos (by linarith :
                (0:ℚ) < -(2 * v.dot (axisUnit Axis.Y (-1))))]
              have := not_lt.1 h4
              intro hcon
              norm_num at hcon
              linarith),
            if_neg (by
              rintro ⟨-, hcon⟩
              exact h4 hcon)]
      · -- s = 0: the normal is the zero vector, so the dot is 0, not < 0
        exfalso
        simp [Vec3.dot, axisUnit] at hd

/-- Claim C3 counterexample: a ball rising through the top face of a cube
(upward velocity, so v·n = 9.85 > 0).  The code leaves the velocity
unchanged, while the claim's unconditional reflection would invert and
damp it — so the claim's description of the bounce response is false for
this intersecting sub-step configuration. -/
theorem ballBounce_counterexample :
    intersectsBox (ballBoxAround ⟨199/4000, 1.1485, 0⟩)
      ⟨⟨-1, -1, -1⟩, ⟨1, 1, 1⟩⟩ ∧
    ballStep (1/100) [⟨⟨-1, -1, -1⟩, ⟨1, 1, 1⟩⟩] ⟨0, 1.05, 0⟩ ⟨5, 10, 0⟩ =
      (⟨199/4000, 1.15, 0⟩, ⟨199/40, 197/20, 0⟩) ∧
    (resolveBallCollision (1/100) (ballBoxAround ⟨199/4000, 1.1485, 0⟩)
        ⟨⟨-1, -1, -1⟩, ⟨1, 1, 1⟩⟩ ⟨199/4000, 1.1485, 0⟩
        ⟨199/40, 197/20, 0⟩).2 = ⟨199/40, 197/20, 0⟩ ∧
    (specBounceC3 (1/100) (ballBoxAround ⟨199/4000, 1.1485, 0⟩)
        ⟨⟨-1, -1, -1⟩, ⟨1, 1, 1⟩⟩ ⟨199/4000, 1.1485, 0⟩
        ⟨199/40, 197/20, 0⟩).2.y = -(197/25) ∧
    (specBounceC3 (1/100) (ballBoxAround ⟨199/4000, 1.1485, 0⟩)
        ⟨⟨-1, -1, -1⟩, ⟨1, 1, 1⟩⟩ ⟨199/4000, 1.1485, 0⟩
        ⟨199/40, 197/20, 0⟩).2 ≠
      (resolveBallCollision (1/100) (ballBoxAround ⟨199/4000, 1.1485, 0⟩)
        ⟨⟨-1, -1, -1⟩, ⟨1, 1, 1⟩⟩ ⟨199/4000, 1.1485, 0⟩
        ⟨199/40, 197/20, 0⟩).2 := by
  refine ⟨?_, ?_, ?_, ?_, ?_⟩ <;>
    norm_num [ballStep, ballVelAfterForces, resolveBallCollision,
      specBounceC3, selectBallAxis, overlapAxis, boxCenterAxis, signQ,
      axisUnit, ballBoxAround, intersectsBox, Vec3.axisGet, Vec3.setAxis,
      Vec3.dot, Vec3.scale, Vec3.add_def, Vec3.sub_def, min_def, max_def]

/-- Witness for C3 (amended) at two concrete bounces: a descending ball
(v·n = -0.15 < 0, reflected to +0.12 with no damping since 0.15 ≤ 0.25)
and the rising ball of the counterexample (v·n ≥ 0, velocity kept). -/
theorem ballBounce_resolution_witness :
    (resolveBallCollision (1/100) (ballBoxAround ⟨0, 1.1494, 0⟩)
        ⟨⟨-1, -1, -1⟩, ⟨1, 1, 1⟩⟩ ⟨0, 1.1494, 0⟩ ⟨0, -(3/20), 0⟩).2 =
      ⟨0, 3/25, 0⟩ ∧
    (resolveBallCollision (1/100) (ballBoxAround ⟨199/4000, 1.1485, 0⟩)
        ⟨⟨-1, -1, -1⟩, ⟨1, 1, 1⟩⟩ ⟨199/4000, 1.1485, 0⟩
        ⟨199/40, 197/20, 0⟩).2 = ⟨199/40, 197/20, 0⟩ := by
  constructor
  · have h := (ballBounce_resolution (1/100) (ballBoxAround ⟨0, 1.1494, 0⟩)
        ⟨⟨-1, -1, -1⟩, ⟨1, 1, 1⟩⟩ ⟨0, 1.1494, 0⟩ ⟨0, -(3/20), 0⟩).2.2.2 _ rfl
        (by norm_num [Vec3.dot, axisUnit, selectBallAxis, overlapAxis,
          signQ, boxCenterAxis, ballBoxAround, Vec3.axisGet, min_def,
          max_def])
    rw [h]
    norm_num [Vec3.dot, axisUnit, selectBallAxis, overlapAxis, signQ,
      boxCenterAxis, ballBoxAround, Vec3.axisGet, Vec3.scale, Vec3.sub_def,
      min_def, max_def]
  · exact (ballBounce_resolution (1/100) (ballBoxAround ⟨199/4000, 1.1485, 0⟩)
        ⟨⟨-1, -1, -1⟩, ⟨1, 1, 1⟩⟩ ⟨199/4000, 1.1485, 0⟩
        ⟨199/40, 197/20, 0⟩).2.2.1
      (by norm_num [Vec3.dot, axisUnit, selectBallAxis, overlapAxis, signQ,
        boxCenterAxis, ballBoxAround, Vec3.axisGet, min_def, max_def])

/- ===================== Claim C5 ===================== -/

theorem resolveBallCollision_fst (dt : ℚ) (bb cb : Box) (pp v : Vec3 ℚ) :
    (resolveBallCollision dt bb cb pp v).1 =
      pp.setAxis (selectBallAxis bb cb)
        (pp.axisGet (selectBallAxis bb cb) +
          overlapAxis (selectBallAxis bb cb) bb cb *
            signQ (pp.axisGet (selectBallAxis bb cb) -
              boxCenterAxis cb (selectBallAxis bb cb))) := by
  simp only [resolveBallCollision]
  split_ifs <;> rfl

theorem pushout_scalar (b o s cmin cmax r : ℚ) (hwf : cmin ≤ cmax)
    (hr : 0 ≤ r)
    (ho : o = min (b + r) cmax - max (b - r) cmin)
    (hcase : (s = 1 ∧ cmin ≤ b - r ∧ cmax ≤ b + r) ∨
             (s = -1 ∧ b - r ≤ cmin ∧ b + r ≤ cmax)) :
    min (b + o * s + r) cmax - max (b + o * s - r) cmin = 0 := by
  rcases hcase with ⟨hs, h1, h2⟩ | ⟨hs, h1, h2⟩
  · subst hs
    rw [mul_one, ho, min_eq_right h2, max_eq_left h1,
      min_eq_right (by linarith), max_eq_left (by linarith)]
    ring
  · subst hs
    rw [ho, min_eq_left h2, max_eq_right h1]
    have hneg : (b + r - cmin) * (-1 : ℚ) = -(b + r - cmin) := by ring
    rw [hneg, min_eq_left (by linarith), max_eq_right (by linarith)]
    ring

/- ===================== Claim C8 ===================== -/

theorem natCeil_three_halves : ⌈(3/2 : ℚ)⌉₊ = 2 := by
  rw [Nat.ceil_eq_iff (by norm_num)]
  norm_num

theorem natCeil_seven_halves : ⌈(7/2 : ℚ)⌉₊ = 4 := by
  rw [Nat.ceil_eq_iff (by norm_num)]
  norm_num

theorem substeps_one_hundredth :
    substeps ⌈(1/100 : ℚ) / (1/100)⌉₊ (1/100) = [1/100] := by
  norm_num [substeps, min_def]

theorem substeps_one_twentieth :
    substeps ⌈(1/20 : ℚ) / (1/100)⌉₊ (1/20) =
      [1/100, 1/100, 1/100, 1/100, 1/100] := by
  norm_num [substeps, min_def]

theorem ballPhysStep_owner (dt : ℚ) (cols : List Box) (t : BallState) :
    (ballPhysStep dt cols t).owner = t.owner := rfl

theorem ballUpdate_single_substep (cols : List Box) (t : BallState)
    (ht : t.owner = none)
    (hy : -10 ≤ (ballPhysStep (1/100) cols t).pos.y) :
    ballUpdate (1/100) cols t = ballPhysStep (1/100) cols t := by
  unfold ballUpdate
  rw [if_pos ht, substeps_one_hundredth]
  simp only [List.foldl_cons, List.foldl_nil]
  unfold ballFloorSafety
  rw [if_neg (not_lt.2 hy)]

/-- Claim C8 counterexample: chunking the same total 0.05 s as
0.015 s + 0.035 s produces the sub-step sequences [0.01, 0.005] and
[0.01, 0.01, 0.01, 0.005] instead of five 0.01 s steps, and the ball's
final height differs (4.977875 versus 4.9775) in exact arithmetic — not a
floating-point discrepancy. -/
theorem ballUpdate_chunking_counterexample :
    (3/200 : ℚ) + 7/200 = 1/20 ∧
    ballUpdate (7/200) []
        (ballUpdate (3/200) [] ⟨⟨0, 5, 0⟩, ⟨0, 0, 0⟩, none⟩) =
      ⟨⟨0, 39823/8000, 0⟩, ⟨0, -(3/4), 0⟩, none⟩ ∧
    ballUpdate (1/20) [] ⟨⟨0, 5, 0⟩, ⟨0, 0, 0⟩, none⟩ =
      ⟨⟨0, 39820/8000, 0⟩, ⟨0, -(3/4), 0⟩, none⟩ ∧
    ballUpdate (7/200) []
        (ballUpdate (3/200) [] ⟨⟨0, 5, 0⟩, ⟨0, 0, 0⟩, none⟩) ≠
      ballUpdate (1/20) [] ⟨⟨0, 5, 0⟩, ⟨0, 0, 0⟩, none⟩ := by
  have e1 : ballUpdate (3/200) [] ⟨⟨0, 5, 0⟩, ⟨0, 0, 0⟩, none⟩ =
      ⟨⟨0, 39979/8000, 0⟩, ⟨0, -(9/40), 0⟩, none⟩ := by
    norm_num [ballUpdate, ballFloorSafety, ballPhysStep, ballStep,
      ballVelAfterForces, substeps, Vec3.scale, Vec3.add_def, min_def,
      natCeil_three_halves]
  have e2 : ballUpdate (7/200) [] ⟨⟨0, 39979/8000, 0⟩, ⟨0, -(9/40), 0⟩, none⟩ =
      ⟨⟨0, 39823/8000, 0⟩, ⟨0, -(3/4), 0⟩, none⟩ := by
    norm_num [ballUpdate, ballFloorSafety, ballPhysStep, ballStep,
      ballVelAfterForces, substeps, Vec3.scale, Vec3.add_def, min_def,
      natCeil_seven_halves]
  have e3 : ballUpdate (1/20) [] ⟨⟨0, 5, 0⟩, ⟨0, 0, 0⟩, none⟩ =
      ⟨⟨0, 39820/8000, 0⟩, ⟨0, -(3/4), 0⟩, none⟩ := by
    norm_num [ballUpdate, ballFloorSafety, ballPhysStep, ballStep,
      ballVelAfterForces, substeps, Vec3.scale, Vec3.add_def, min_def]
  refine ⟨by norm_num, by rw [e1, e2], e3, ?_⟩
  rw [e1, e2, e3]
  intro hcon
  have hy := congrArg (fun t : BallState => t.pos.y) hcon
  norm_num at hy

/-- Claim C8 (amended): sub-step determinism holds for chunkings aligned
to the 0.01 s sub-step grid, provide the floor-safety reset does not
trigger at an intermediate chunk boundary: five 0.01 s calls equal one
0.05 s call exactly.  Unaligned chunkings produce different sub-step
sequences and genuinely different results (see the counterexample). -/
theorem ballUpdate_chunking_aligned (cols : List Box) (s : BallState)
    (hown : s.owner = none)
    (h1 : -10 ≤ (ballPhysStep (1/100) cols s).pos.y)
    (h2 : -10 ≤ (ballPhysStep (1/100) cols
      (ballPhysStep (1/100) cols s)).pos.y)
    (h3 : -10 ≤ (ballPhysStep (1/100) cols (ballPhysStep (1/100) cols
      (ballPhysStep (1/100) cols s))).pos.y)
    (h4 : -10 ≤ (ballPhysStep (1/100) cols (ballPhysStep (1/100) cols
      (ballPhysStep (1/100) cols (ballPhysStep (1/100) cols s)))).pos.y) :
    ballUpdate (1/100) cols (ballUpdate (1/100) cols (ballUpdate (1/100)
        cols (ballUpdate (1/100) cols (ballUpdate (1/100) cols s)))) =
      ballUpdate (1/20) cols s := by
  have e1 := ballUpdate_single_substep cols s hown h1
  have o1 : (ballPhysStep (1/100) cols s).owner = none := by
    rw [ballPhysStep_owner]; exact hown
  have e2 := ballUpdate_single_substep cols _ o1 h2
  have o2 : (ballPhysStep (1/100) cols
      (ballPhysStep (1/100) cols s)).owner = none := by
    rw [ballPhysStep_owner]; exact o1
  have e3 := ballUpdate_single_substep cols _ o2 h3
  have o3 : (ballPhysStep (1/100) cols (ballPhysStep (1/100) cols
      (ballPhysStep (1/100) cols s))).owner = none := by
    rw [ballPhysStep_owner]; exact o2
  have e4 := ballUpdate_single_substep cols _ o3 h4
  have o4 : (ballPhysStep (1/100) cols (ballPhysStep (1/100) cols
      (ballPhysStep (1/100) cols (ballPhysStep (1/100) cols s)))).owner =
      none := by
    rw [ballPhysStep_owner]; exact o3
  rw [e1, e2, e3, e4]
  unfold ballUpdate
  rw [if_pos o4, if_pos hown, substeps_one_hundredth, substeps_one_twentieth]
  simp only [List.foldl_cons, List.foldl_nil]

/-- Witness for C8 (amended): a ball dropped from (0,5,0) with no
colliders — five 0.01 s updates coincide with one 0.05 s update. -/
theorem ballUpdate_chunking_aligned_witness :
    ballUpdate (1/100) [] (ballUpdate (1/100) [] (ballUpdate (1/100) []
        (ballUpdate (1/100) [] (ballUpdate (1/100) []
          ⟨⟨0, 5, 0⟩, ⟨0, 0, 0⟩, none⟩)))) =
      ballUpdate (1/20) [] ⟨⟨0, 5, 0⟩, ⟨0, 0, 0⟩, none⟩ :=
  ballUpdate_chunking_aligned [] ⟨⟨0, 5, 0⟩, ⟨0, 0, 0⟩, none⟩ rfl
    (by norm_num [ballPhysStep, ballStep, ballVelAfterForces, Vec3.scale,
      Vec3.add_def])
    (by norm_num [ballPhysStep, ballStep, ballVelAfterForces, Vec3.scale,
      Vec3.add_def])
    (by norm_num [ballPhysStep, ballStep, ballVelAfterForces, Vec3.scale,
      Vec3.add_def])
    (by norm_num [ballPhysStep, ballStep, ballVelAfterForces, Vec3.scale,
      Vec3.add_def])

/- ===================== Claim C4 ===================== -/

theorem resolvePlayerCollider_offAxis (axis : Axis) (cb : Box)
    (st : PlayerState) :
    (∀ a : Axis, a ≠ axis →
      (resolvePlayerCollider axis cb st).pos.axisGet a = st.pos.axisGet a ∧
      (resolvePlayerCollider axis cb st).vel.axisGet a = st.vel.axisGet a) ∧
    (axis ≠ Axis.Y →
      (resolvePlayerCollider axis cb st).onGround = st.onGround) := by
  cases axis <;>
    (simp only [resolvePlayerCollider]
     split_ifs <;>
       refine ⟨fun a ha => ?_, fun hx => ?_⟩ <;>
         first
           | exact ⟨rfl, rfl⟩
           | rfl
           | (cases a <;> simp_all [Vec3.axisGet])
           | simp_all)

theorem resolveCollisionsQ_cons (c : Box) (rest : List Box) (axis : Axis)
    (st : PlayerState) :
    resolveCollisionsQ (c :: rest) axis st =
      resolveCollisionsQ rest axis (resolvePlayerCollider axis c st) := rfl

theorem resolveCollisionsQ_offAxis (axis : Axis) (cols : List Box)
    (st : PlayerState) :
    (∀ a : Axis, a ≠ axis →
      (resolveCollisionsQ cols axis st).pos.axisGet a = st.pos.axisGet a ∧
      (resolveCollisionsQ cols axis st).vel.axisGet a = st.vel.axisGet a) ∧
    (axis ≠ Axis.Y →
      (resolveCollisionsQ cols axis st).onGround = st.onGround) := by
  induction cols generalizing st with
  | nil => exact ⟨fun a ha => ⟨rfl, rfl⟩, fun hx => rfl⟩
  | cons c rest ih =>
    have hc := resolvePlayerCollider_offAxis axis c st
    refine ⟨fun a ha => ?_, fun hx => ?_⟩
    · rw [resolveCollisionsQ_cons]
      obtain ⟨h1, h2⟩ := hc.1 a ha
      obtain ⟨h3, h4⟩ := (ih (resolvePlayerCollider axis c st)).1 a ha
      exact ⟨h3.trans h1, h4.trans h2⟩
    · rw [resolveCollisionsQ_cons]
      exact ((ih (resolvePlayerCollider axis c st)).2 hx).trans (hc.2 hx)

theorem resolvePlayerCollider_hardstop (axis : Axis) (cb : Box)
    (st : PlayerState)
    (hint : intersectsBox (playerBoxOf st.pos) cb)
    (hskip : ¬(|overlapAxis Axis.X (playerBoxOf st.pos) cb| < 1/1000 ∨
        |overlapAxis Axis.Y (playerBoxOf st.pos) cb| < 1/1000 ∨
        |overlapAxis Axis.Z (playerBoxOf st.pos) cb| < 1/1000))
    (hover : 0 < overlapAxis axis (playerBoxOf st.pos) cb) :
    ∃ sg : ℚ, (sg = 1 ∨ sg = -1 ∨ sg = 0) ∧
      (resolvePlayerCollider axis cb st).pos.axisGet axis =
        st.pos.axisGet axis + overlapAxis axis (playerBoxOf st.pos) cb * sg ∧
      (resolvePlayerCollider axis cb st).vel.axisGet axis = 0 ∧
      (axis = Axis.Y → st.vel.y < 0 →
        (resolvePlayerCollider axis cb st).onGround = true ∧ sg = 1) := by
  cases axis with
  | X =>
    refine ⟨if st.vel.x ≠ 0 then -signQ st.vel.x
        else signQ (st.pos.x - boxCenterAxis cb Axis.X), ?_, ?_, ?_, ?_⟩
    · split_ifs
      · rcases signQ_cases st.vel.x with h | h | h <;> rw [h] <;> norm_num
      · exact signQ_cases _
    · simp only [resolvePlayerCollider]
      rw [if_pos hint, if_neg hskip, if_pos hover]
      simp [Vec3.axisGet]
    · simp only [resolvePlayerCollider]
      rw [if_pos hint, if_neg hskip, if_pos hover]
      simp [Vec3.axisGet]
    · intro h; exact absurd h (by simp)
  | Z =>
    refine ⟨if st.vel.z ≠ 0 then -signQ st.vel.z
        else signQ (st.pos.z - boxCenterAxis cb Axis.Z), ?_, ?_, ?_, ?_⟩
    · split_ifs
      · rcases signQ_cases st.vel.z with h | h | h <;> rw [h] <;> norm_num
      · exact signQ_cases _
    · simp only [resolvePlayerCollider]
      rw [if_pos hint, if_neg hskip, if_pos hover]
      simp [Vec3.axisGet]
    · simp only [resolvePlayerCollider]
      rw [if_pos hint, if_neg hskip, if_pos hover]
      simp [Vec3.axisGet]
    · intro h; exact absurd h (by simp)
  | Y =>
    by_cases hneg : st.vel.y < 0
    · refine ⟨1, Or.inl rfl, ?_, ?_, fun _ _ => ⟨?_, rfl⟩⟩ <;>
        (simp only [resolvePlayerCollider]
         rw [if_pos hint, if_neg hskip, if_pos hover, if_pos hneg]
         try simp [Vec3.axisGet])
    · by_cases hpos : 0 < st.vel.y
      · refine ⟨-1, Or.inr (Or.inl rfl), ?_, ?_, fun _ h => absurd h hneg⟩ <;>
          (simp only [resolvePlayerCollider]
           rw [if_pos hint, if_neg hskip, if_pos hover, if_neg hneg,
             if_pos hpos]
           try simp [Vec3.axisGet, sub_eq_add_neg])
      · have hz : st.vel.y = 0 := le_antisymm (not_lt.1 hpos) (not_lt.1 hneg)
        refine ⟨1, Or.inl rfl, ?_, ?_, fun _ h => absurd h hneg⟩ <;>
          (simp only [resolvePlayerCollider]
           rw [if_pos hint, if_neg hskip, if_pos hover, if_neg hneg,
             if_neg hpos]
           try simp [Vec3.axisGet, hz])

/-- Claim C4: the player's update applies the position delta and resolves
collisions once per axis, sequentially x then z then y — never one
combined 3-D check — before the fall-limit respawn; each per-axis pass
changes only that axis's position and velocity components (touching the
grounded flag only on the vertical pass); and each individual hard-stop
resolution adds the signed overlap to the position on the resolved axis,
zeroes the velocity on that axis only, and sets grounded when the
resolved axis is vertical and the player was descending. -/
theorem playerUpdate_axisSequential (delta : ℚ) (cols : List Box)
    (st : PlayerState) :
    (playerMovePhase delta cols st =
      (let s1 := resolveCollisionsQ cols Axis.X
        ⟨⟨st.pos.x + st.vel.x * delta, st.pos.y, st.pos.z⟩, st.vel, false⟩
       let s2 := resolveCollisionsQ cols Axis.Z
        ⟨⟨s1.pos.x, s1.pos.y, s1.pos.z + s1.vel.z * delta⟩, s1.vel,
          s1.onGround⟩
       let s3 := resolveCollisionsQ cols Axis.Y
        ⟨⟨s2.pos.x, s2.pos.y + s2.vel.y * delta, s2.pos.z⟩, s2.vel,
          s2.onGround⟩
       if s3.pos.y < -20 then ⟨⟨0, 5, 5⟩, ⟨0, 0, 0⟩, s3.onGround⟩ else s3)) ∧
    (∀ (axis : Axis) (cols2 : List Box) (st2 : PlayerState) (a : Axis),
      a ≠ axis →
      (resolveCollisionsQ cols2 axis st2).pos.axisGet a =
        st2.pos.axisGet a ∧
      (resolveCollisionsQ cols2 axis st2).vel.axisGet a =
        st2.vel.axisGet a) ∧
    (∀ (axis : Axis) (cols2 : List Box) (st2 : PlayerState),
      axis ≠ Axis.Y →
      (resolveCollisionsQ cols2 axis st2).onGround = st2.onGround) ∧
    (∀ (axis : Axis) (cb : Box) (st2 : PlayerState),
      intersectsBox (playerBoxOf st2.pos) cb →
      ¬(|overlapAxis Axis.X (playerBoxOf st2.pos) cb| < 1/1000 ∨
        |overlapAxis Axis.Y (playerBoxOf st2.pos) cb| < 1/1000 ∨
        |overlapAxis Axis.Z (playerBoxOf st2.pos) cb| < 1/1000) →
      0 < overlapAxis axis (playerBoxOf st2.pos) cb →
      ∃ sg : ℚ, (sg = 1 ∨ sg = -1 ∨ sg = 0) ∧
        (resolvePlayerCollider axis cb st2).pos.axisGet axis =
          st2.pos.axisGet axis +
            overlapAxis axis (playerBoxOf st2.pos) cb * sg ∧
        (resolvePlayerCollider axis cb st2).vel.axisGet axis = 0 ∧
        (axis = Axis.Y → st2.vel.y < 0 →
          (resolvePlayerCollider axis cb st2).onGround = true ∧ sg = 1)) :=
  ⟨rfl,
   fun axis cols2 st2 a ha => (resolveCollisionsQ_offAxis axis cols2 st2).1 a ha,
   fun axis cols2 st2 hne => (resolveCollisionsQ_offAxis axis cols2 st2).2 hne,
   fun axis cb st2 hint hskip hover =>
     resolvePlayerCollider_hardstop axis cb st2 hint hskip hover⟩

/-- Witness for C4: a player descending onto a cube.  The vertical
hard-stop zeroes the vertical velocity and grounds the player, and the
vertical pass leaves the x components untouched. -/
theorem playerUpdate_axisSequential_witness :
    ((resolveCollisionsQ [⟨⟨-1, -1, -1⟩, ⟨1, 1, 1⟩⟩] Axis.Y
        ⟨⟨0, 1.5, 0⟩, ⟨0, -1, 0⟩, false⟩).pos.axisGet Axis.X =
      (⟨⟨0, 1.5, 0⟩, ⟨0, -1, 0⟩, false⟩ : PlayerState).pos.axisGet Axis.X) ∧
    (resolvePlayerCollider Axis.Y ⟨⟨-1, -1, -1⟩, ⟨1, 1, 1⟩⟩
        ⟨⟨0, 1.5, 0⟩, ⟨0, -1, 0⟩, false⟩).vel.axisGet Axis.Y = 0 ∧
    (resolvePlayerCollider Axis.Y ⟨⟨-1, -1, -1⟩, ⟨1, 1, 1⟩⟩
        ⟨⟨0, 1.5, 0⟩, ⟨0, -1, 0⟩, false⟩).onGround = true := by
  have h := playerUpdate_axisSequential (1/100) [] ⟨⟨0, 0, 0⟩, ⟨0, 0, 0⟩, false⟩
  refine ⟨(h.2.1 Axis.Y [⟨⟨-1, -1, -1⟩, ⟨1, 1, 1⟩⟩]
      ⟨⟨0, 1.5, 0⟩, ⟨0, -1, 0⟩, false⟩ Axis.X (by decide)).1, ?_⟩
  obtain ⟨sg, hsg, hpos, hvel, himp⟩ :=
    h.2.2.2 Axis.Y ⟨⟨-1, -1, -1⟩, ⟨1, 1, 1⟩⟩ ⟨⟨0, 1.5, 0⟩, ⟨0, -1, 0⟩, false⟩
      (by norm_num [intersectsBox, playerBoxOf])
      (by norm_num [overlapAxis, playerBoxOf, Vec3.axisGet, min_def,
        max_def, abs_lt])
      (by norm_num [overlapAxis, playerBoxOf, Vec3.axisGet, min_def,
        max_def])
  exact ⟨hvel, (himp rfl (by norm_num)).1⟩

/- ===================== Claim C1 ===================== -/

theorem xzDist_nonneg (s t : Vec3 ℝ) : 0 ≤ xzDist s t := Real.sqrt_nonneg _

theorem xzDist_eq_zero_iff (s t : Vec3 ℝ) :
    xzDist s t = 0 ↔ t.x - s.x = 0 ∧ t.z - s.z = 0 := by
  unfold xzDist
  rw [Real.sqrt_eq_zero']
  constructor
  · intro h
    constructor <;> nlinarith [sq_nonneg (t.x - s.x), sq_nonneg (t.z - s.z)]
  · rintro ⟨h1, h2⟩
    rw [h1, h2]
    norm_num

/-- Claim C1: the ballistic solver returns `none` exactly when
`x·tanθ - y ≤ 0`; otherwise its output is the XZ unit direction from
start to target scaled by `v·cosθ` with vertical component `v·sinθ`,
where `v = sqrt(g·x² / (2·cos²θ·(x·tanθ - y)))` and `g = 15` — and in
the degenerate case `x = 0` (target straight above or below) the solver
returns the zero vector, which is that same prescription since `v = 0`
there.  In this exact real-number model no NaN or infinity exists; the
returned components are always well-defined reals. -/
theorem calculateShotVelocity_spec (s t : Vec3 ℝ) (angleDeg : ℝ) :
    (calculateShotVelocity s t angleDeg = none ↔
      xzDist s t * Real.tan (angleDeg * (Real.pi / 180)) - (t.y - s.y) ≤ 0) ∧
    (∀ w, calculateShotVelocity s t angleDeg = some w →
      xzDist s t ≠ 0 → w = specShotVector s t angleDeg) ∧
    (∀ w, calculateShotVelocity s t angleDeg = some w →
      xzDist s t = 0 → w = ⟨0, 0, 0⟩) := by
  unfold calculateShotVelocity
  by_cases h : xzDist s t * Real.tan (angleDeg * (Real.pi / 180)) -
      (t.y - s.y) ≤ 0
  · rw [if_pos h]
    exact ⟨⟨fun _ => h, fun _ => rfl⟩, fun w hw => absurd hw (by simp),
      fun w hw => absurd hw (by simp)⟩
  · rw [if_neg h]
    refine ⟨⟨fun hc => absurd hc (by simp), fun hc => absurd hc h⟩,
      fun w hw hx => ?_, fun w hw hx => ?_⟩
    · rw [Option.some_inj] at hw
      rw [← hw]
      unfold specShotVector
      rw [if_neg hx]
    · rw [Option.some_inj] at hw
      obtain ⟨h1, h2⟩ := (xzDist_eq_zero_iff s t).1 hx
      rw [← hw, h1, h2, hx]
      norm_num [Real.sqrt_zero]

theorem xzDist_45 : xzDist ⟨0, 0, 0⟩ ⟨0, 0, 30⟩ = 30 := by
  unfold xzDist
  norm_num
  rw [show (900:ℝ) = 30 ^ 2 by norm_num, Real.sqrt_sq (by norm_num)]

theorem shot45_eval :
    calculateShotVelocity ⟨0, 0, 0⟩ ⟨0, 0, 30⟩ 45 = some ⟨0, 15, 15⟩ := by
  have hx : xzDist ⟨0, 0, 0⟩ ⟨0, 0, 30⟩ = 30 := xzDist_45
  have hrad : (45:ℝ) * (Real.pi / 180) = Real.pi / 4 := by ring
  have h22 : Real.sqrt 2 ^ 2 = 2 := Real.sq_sqrt (by norm_num)
  have hsqrt450 : Real.sqrt 450 = 15 * Real.sqrt 2 := by
    rw [show (450:ℝ) = 15 ^ 2 * 2 by norm_num,
      Real.sqrt_mul (by positivity), Real.sqrt_sq (by norm_num)]
  have hs2 : Real.sqrt 2 * Real.sqrt 2 = 2 :=
    Real.mul_self_sqrt (by norm_num)
  simp only [calculateShotVelocity, hx, hrad, Real.tan_pi_div_four,
    Real.cos_pi_div_four, Real.sin_pi_div_four]
  rw [if_neg (by norm_num)]
  have harg : 15 * (30:ℝ) ^ 2 /
      (2 * (Real.sqrt 2 / 2) ^ 2 * (30 * 1 - (0 - 0))) = 450 := by
    rw [div_pow, h22]
    norm_num
  have h15 : (15:ℝ) * Real.sqrt 2 * (Real.sqrt 2 / 2) = 15 := by
    rw [show (15:ℝ) * Real.sqrt 2 * (Real.sqrt 2 / 2) =
      15 * (Real.sqrt 2 * Real.sqrt 2) / 2 by ring, hs2]
    norm_num
  rw [harg, hsqrt450]
  rw [Option.some_inj]
  simp only [Vec3.mk.injEq, h15]
  norm_num [h15]

/- ===================== Claim C2 ===================== -/

theorem gravitySim_closed (n : ℕ) :
    gravitySim ⟨0, 0, 0⟩ ⟨0, 15, 15⟩ n =
      (⟨0, (3/20) * n - (3/4000) * n * (n + 1), (3/20) * n⟩,
       ⟨0, 15 - (3/20) * n, 15⟩) := by
  induction n with
  | zero => norm_num [gravitySim]
  | succ k ih =>
    rw [gravitySim, ih]
    simp only [gravityStep, Prod.mk.injEq, Vec3.mk.injEq]
    refine ⟨⟨by norm_num, ?_, ?_⟩, by norm_num, ?_, by norm_num⟩ <;>
      push_cast <;> ring

/-- Claim C2 counterexample: the solver's 45° solution from the origin to
the point (0,0,30) is the velocity (0,15,15), but the 0.01 s sub-stepped
gravity simulation never comes within 0.05 of the target: every sample at
index other than 200 is at least 0.15 off horizontally, and sample 200
lands at height -0.15. -/
theorem shotRoundTrip_counterexample :
    calculateShotVelocity ⟨0, 0, 0⟩ ⟨0, 0, 30⟩ 45 = some ⟨0, 15, 15⟩ ∧
    ¬ ∃ n : ℕ, distSq (gravitySim ⟨0, 0, 0⟩ ⟨0, 15, 15⟩ n).1 ⟨0, 0, 30⟩ ≤
        (1/20) ^ 2 := by
  refine ⟨shot45_eval, ?_⟩
  rintro ⟨n, hn⟩
  rw [gravitySim_closed] at hn
  unfold distSq at hn
  rcases eq_or_ne n 200 with h | h
  · subst h
    norm_num at hn
  · have h1 : (1:ℝ) ≤ ((n:ℝ) - 200) ^ 2 := by
      have hz : (n:ℤ) ≠ 200 := by exact_mod_cast h
      have h2 : 1 ≤ ((n:ℤ) - 200) ^ 2 := by
        have hcase : (n:ℤ) - 200 ≤ -1 ∨ 1 ≤ (n:ℤ) - 200 := by omega
        rcases hcase with hcase | hcase <;> nlinarith
      calc (1:ℝ) = ((1:ℤ):ℝ) := by norm_num
        _ ≤ (((n:ℤ) - 200) ^ 2 : ℤ) := by exact_mod_cast h2
        _ = ((n:ℝ) - 200) ^ 2 := by push_cast; ring
    have hzt : ((3:ℝ)/20 * (n:ℝ) - 30) ^ 2 = (9/400) * ((n:ℝ) - 200) ^ 2 := by
      ring
    norm_num at hn
    nlinarith [sq_nonneg ((3:ℝ)/20 * (n:ℝ) - (3/4000) * (n:ℝ) * ((n:ℝ) + 1))]

theorem Vec3.eq_of_components {α : Type} (a b : Vec3 α)
    (hx : a.x = b.x) (hy : a.y = b.y) (hz : a.z = b.z) : a = b := by
  cases a
  cases b
  cases hx
  cases hy
  cases hz
  rfl

/-- Claim C2 (amended): under the continuous-time gravity model with the
same constant g = 15 (the limit the sub-stepped gravity model
approximates), every velocity returned by the ballistic solver for a
launch angle with positive cosine passes exactly through the target at
some nonnegative time.  The discrete 0.01 s stepper accrues an O(g·dt·T)
vertical offset and can therefore miss by more than 0.05 on long flights
(see the counterexample). -/
theorem shotRoundTrip_continuous (s t : Vec3 ℝ) (angleDeg : ℝ) (w : Vec3 ℝ)
    (hw : calculateShotVelocity s t angleDeg = some w)
    (hc : 0 < Real.cos (angleDeg * (Real.pi / 180))) :
    ∃ tau, 0 ≤ tau ∧ ballisticPos s w tau = t := by
  have hxnn := xzDist_nonneg s t
  simp only [calculateShotVelocity] at hw
  by_cases hterm : xzDist s t * Real.tan (angleDeg * (Real.pi / 180)) -
      (t.y - s.y) ≤ 0
  · rw [if_pos hterm] at hw
    exact absurd hw (by simp)
  rw [if_neg hterm] at hw
  rw [Option.some_inj] at hw
  push_neg at hterm
  rcases eq_or_lt_of_le hxnn with hx0 | hxpos
  · -- degenerate: target straight above/below; the solver returns zero
    obtain ⟨hdx, hdz⟩ := (xzDist_eq_zero_iff s t).1 hx0.symm
    have hdy : t.y - s.y < 0 := by
      rw [← hx0] at hterm
      simpa using hterm
    have hw0 : w = ⟨0, 0, 0⟩ := by
      rw [← hw, hdx, hdz, ← hx0]
      norm_num [Real.sqrt_zero]
    refine ⟨Real.sqrt (-(t.y - s.y) * 2 / 15), Real.sqrt_nonneg _, ?_⟩
    have htau : Real.sqrt (-(t.y - s.y) * 2 / 15) ^ 2 =
        -(t.y - s.y) * 2 / 15 := Real.sq_sqrt (by nlinarith)
    unfold ballisticPos
    rw [hw0]
    refine Vec3.eq_of_components _ _ ?_ ?_ ?_ <;> simp only []
    · linarith
    · rw [htau]
      ring_nf
      try linarith
    · linarith
  · -- proper shot: positive horizontal distance
    have hcos : Real.cos (angleDeg * (Real.pi / 180)) ≠ 0 := ne_of_gt hc
    have hxne : xzDist s t ≠ 0 := ne_of_gt hxpos
    have hargpos : 0 < 15 * xzDist s t ^ 2 /
        (2 * Real.cos (angleDeg * (Real.pi / 180)) ^ 2 *
          (xzDist s t * Real.tan (angleDeg * (Real.pi / 180)) -
            (t.y - s.y))) :=
      div_pos (by positivity)
        (mul_pos (mul_pos (by norm_num) (pow_pos hc 2)) hterm)
    have hv2 : Real.sqrt (15 * xzDist s t ^ 2 /
        (2 * Real.cos (angleDeg * (Real.pi / 180)) ^ 2 *
          (xzDist s t * Real.tan (angleDeg * (Real.pi / 180)) -
            (t.y - s.y)))) ^ 2 =
        15 * xzDist s t ^ 2 /
          (2 * Real.cos (angleDeg * (Real.pi / 180)) ^ 2 *
            (xzDist s t * Real.tan (angleDeg * (Real.pi / 180)) -
              (t.y - s.y))) := Real.sq_sqrt hargpos.le
    have hvpos : 0 < Real.sqrt (15 * xzDist s t ^ 2 /
        (2 * Real.cos (angleDeg * (Real.pi / 180)) ^ 2 *
          (xzDist s t * Real.tan (angleDeg * (Real.pi / 180)) -
            (t.y - s.y)))) := Real.sqrt_pos.2 hargpos
    have hvne := ne_of_gt hvpos
    refine ⟨xzDist s t / (Real.sqrt (15 * xzDist s t ^ 2 /
        (2 * Real.cos (angleDeg * (Real.pi / 180)) ^ 2 *
          (xzDist s t * Real.tan (angleDeg * (Real.pi / 180)) -
            (t.y - s.y)))) * Real.cos (angleDeg * (Real.pi / 180))),
      le_of_lt (div_pos hxpos (mul_pos hvpos hc)), ?_⟩
    unfold ballisticPos
    rw [← hw]
    rw [if_neg hxne]
    have htan : Real.tan (angleDeg * (Real.pi / 180)) =
        Real.sin (angleDeg * (Real.pi / 180)) /
          Real.cos (angleDeg * (Real.pi / 180)) :=
      Real.tan_eq_sin_div_cos _
    set X := xzDist s t with hX
    set C := Real.cos (angleDeg * (Real.pi / 180)) with hC
    set S := Real.sin (angleDeg * (Real.pi / 180)) with hS
    set T := Real.tan (angleDeg * (Real.pi / 180)) with hT
    set V := Real.sqrt (15 * X ^ 2 / (2 * C ^ 2 * (X * T - (t.y - s.y))))
      with hV
    have hVC : V * C ≠ 0 := mul_ne_zero hvne hcos
    have hT3 : X * T - (t.y - s.y) ≠ 0 := ne_of_gt hterm
    refine Vec3.eq_of_components _ _ ?_ ?_ ?_ <;> simp only []
    · have e : (t.x - s.x) / X * (V * C) * (X / (V * C)) =
          (t.x - s.x) * (X / X) * ((V * C) / (V * C)) := by ring
      rw [e, div_self hxne, div_self hVC]
      ring
    · have key : V * S * (X / (V * C)) = X * S / C := by
        field_simp
        ring
      have key2 : 15 * (X / (V * C)) ^ 2 / 2 = X * T - (t.y - s.y) := by
        rw [div_pow, mul_pow, hv2]
        field_simp
        ring
      rw [key, key2, htan]
      field_simp
      ring
    · have e : (t.z - s.z) / X * (V * C) * (X / (V * C)) =
          (t.z - s.z) * (X / X) * ((V * C) / (V * C)) := by ring
      rw [e, div_self hxne, div_self hVC]
      ring

/-- Witness for C1: the 45° shot from the origin to (0,0,30) is solvable
and the returned velocity (0,15,15) matches the spec formula. -/
theorem calculateShotVelocity_spec_witness :
    calculateShotVelocity ⟨0, 0, 0⟩ ⟨0, 0, 30⟩ 45 = some ⟨0, 15, 15⟩ ∧
    xzDist ⟨0, 0, 0⟩ ⟨0, 0, 30⟩ ≠ 0 ∧
    (⟨0, 15, 15⟩ : Vec3 ℝ) = specShotVector ⟨0, 0, 0⟩ ⟨0, 0, 30⟩ 45 :=
  ⟨shot45_eval, by rw [xzDist_45]; norm_num,
   (calculateShotVelocity_spec ⟨0, 0, 0⟩ ⟨0, 0, 30⟩ 45).2.1 ⟨0, 15, 15⟩
     shot45_eval (by rw [xzDist_45]; norm_num)⟩

/-- Witness for C2 (amended): the 45° shot's continuous trajectory passes
through its target. -/
theorem shotRoundTrip_continuous_witness :
    ∃ tau, 0 ≤ tau ∧
      ballisticPos ⟨0, 0, 0⟩ ⟨0, 15, 15⟩ tau = (⟨0, 0, 30⟩ : Vec3 ℝ) :=
  shotRoundTrip_continuous ⟨0, 0, 0⟩ ⟨0, 0, 30⟩ 45 ⟨0, 15, 15⟩ shot45_eval
    (by
      rw [show (45:ℝ) * (Real.pi / 180) = Real.pi / 4 by ring,
        Real.cos_pi_div_four]
      positivity)

/- ===================== Claim C5 ===================== -/

theorem pushout_interval (amin amax cmin cmax o s : ℚ) (hwf : cmin ≤ cmax)
    (hab : amin ≤ amax)
    (ho : o = min amax cmax - max amin cmin)
    (hcase : (s = 1 ∧ cmin ≤ amin ∧ cmax ≤ amax) ∨
             (s = -1 ∧ amin ≤ cmin ∧ amax ≤ cmax)) :
    min (amax + o * s) cmax - max (amin + o * s) cmin = 0 := by
  rcases hcase with ⟨hs, h1, h2⟩ | ⟨hs, h1, h2⟩
  · subst hs
    rw [mul_one, ho, min_eq_right h2, max_eq_left h1,
      min_eq_right (by linarith), max_eq_left (by linarith)]
    ring
  · subst hs
    rw [ho, min_eq_left h2, max_eq_right h1]
    have hneg : (amax - cmin) * (-1 : ℚ) = -(amax - cmin) := by ring
    rw [hneg, min_eq_left (by linarith), max_eq_right (by linarith)]
    ring

theorem overlapAxis_X_playerBox (p : Vec3 ℚ) (cb : Box) :
    overlapAxis Axis.X (playerBoxOf p) cb =
      min (p.x + 0.3) cb.bmax.x - max (p.x - 0.3) cb.bmin.x := rfl

theorem overlapAxis_Y_playerBox (p : Vec3 ℚ) (cb : Box) :
    overlapAxis Axis.Y (playerBoxOf p) cb =
      min p.y cb.bmax.y - max (p.y - 1.6) cb.bmin.y := rfl

theorem overlapAxis_Z_playerBox (p : Vec3 ℚ) (cb : Box) :
    overlapAxis Axis.Z (playerBoxOf p) cb =
      min (p.z + 0.3) cb.bmax.z - max (p.z - 0.3) cb.bmin.z := rfl

theorem overlapAxis_playerBox_congr (a : Axis) (cb : Box) (p q : Vec3 ℚ)
    (h : p.axisGet a = q.axisGet a) :
    overlapAxis a (playerBoxOf p) cb = overlapAxis a (playerBoxOf q) cb := by
  cases a <;>
    simp only [overlapAxis, playerBoxOf, Vec3.axisGet] at h ⊢ <;>
    rw [h]

/-- Claim C5 counterexample, refuting both halves of the claim.
(a) Ball, one collider, deep containment: a ball fully inside a cube is
pushed by the (too small) 0.3 minimum overlap and remains penetrating by
0.3 on the resolved y axis after the sub-step.
(b) Ball, two colliders: the collider loop tests the stale ball AABB, so
the second collider pushes the ball back into the first, leaving 0.1
overlap on the first collider's resolved x axis.
(c) Player, one collider, deep containment: the frame's vertical
hard-stop (resting branch, grounding the player) pushes by the 1.6
overlap and leaves the player penetrating by 1.6 on the resolved y axis.
(d) Player, two colliders: the second collider's x hard-stop pushes the
player back into the first, leaving 0.5 overlap on the resolved x axis at
the end of the frame. -/
theorem penetration_counterexample :
    (selectBallAxis (ballBoxAround ⟨0, 0.1, 0⟩) ⟨⟨-1, -1, -1⟩, ⟨1, 1, 1⟩⟩ =
        Axis.Y ∧
      intersectsBox (ballBoxAround ⟨0, 0.1, 0⟩) ⟨⟨-1, -1, -1⟩, ⟨1, 1, 1⟩⟩ ∧
      overlapAxis Axis.Y
        (ballBoxAround
          (ballStep (1/100) [⟨⟨-1, -1, -1⟩, ⟨1, 1, 1⟩⟩]
            ⟨0, 0.1015, 0⟩ ⟨0, 0, 0⟩).1)
        ⟨⟨-1, -1, -1⟩, ⟨1, 1, 1⟩⟩ = 3/10 ∧
      (1/1000 : ℚ) < 3/10) ∧
    (selectBallAxis (ballBoxAround ⟨0, 0, 0⟩) ⟨⟨0.05, -1, -1⟩, ⟨1, 1, 1⟩⟩ =
        Axis.X ∧
      overlapAxis Axis.X
        (ballBoxAround
          (ballStep (1/100)
            [⟨⟨0.05, -1, -1⟩, ⟨1, 1, 1⟩⟩, ⟨⟨-1, -1, -1⟩, ⟨-0.05, 1, 1⟩⟩]
            ⟨0, 0.0015, 0⟩ ⟨0, 0, 0⟩).1)
        ⟨⟨0.05, -1, -1⟩, ⟨1, 1, 1⟩⟩ = 1/10 ∧
      (1/1000 : ℚ) < 1/10) ∧
    ((playerMovePhase (1/100) [⟨⟨-5, -5, -5⟩, ⟨5, 5, 5⟩⟩]
        ⟨⟨0, 0.5, 0⟩, ⟨0, 0, 0⟩, false⟩).onGround = true ∧
      overlapAxis Axis.Y
        (playerBoxOf
          (playerMovePhase (1/100) [⟨⟨-5, -5, -5⟩, ⟨5, 5, 5⟩⟩]
            ⟨⟨0, 0.5, 0⟩, ⟨0, 0, 0⟩, false⟩).pos)
        ⟨⟨-5, -5, -5⟩, ⟨5, 5, 5⟩⟩ = 8/5 ∧
      (1/1000 : ℚ) < 8/5) ∧
    ((playerMovePhase (1/100)
        [⟨⟨0.05, -5, -5⟩, ⟨1, 5, 5⟩⟩, ⟨⟨-1, -5, -5⟩, ⟨-0.05, 5, 5⟩⟩]
        ⟨⟨0, 0.5, 0⟩, ⟨0, 0, 0⟩, false⟩).pos = ⟨1/4, 21/10, 0⟩ ∧
      overlapAxis Axis.X
        (playerBoxOf
          (playerMovePhase (1/100)
            [⟨⟨0.05, -5, -5⟩, ⟨1, 5, 5⟩⟩, ⟨⟨-1, -5, -5⟩, ⟨-0.05, 5, 5⟩⟩]
            ⟨⟨0, 0.5, 0⟩, ⟨0, 0, 0⟩, false⟩).pos)
        ⟨⟨0.05, -5, -5⟩, ⟨1, 5, 5⟩⟩ = 1/2 ∧
      (1/1000 : ℚ) < 1/2) := by
  refine ⟨⟨?_, ?_, ?_, by norm_num⟩, ⟨?_, ?_, by norm_num⟩,
    ⟨?_, ?_, by norm_num⟩, ⟨?_, ?_, by norm_num⟩⟩ <;>
    norm_num [playerMovePhase, resolveCollisionsQ, resolvePlayerCollider,
      playerBoxOf, ballStep, ballVelAfterForces, resolveBallCollision,
      selectBallAxis, overlapAxis, boxCenterAxis, signQ, axisUnit,
      ballBoxAround, intersectsBox, Vec3.axisGet, Vec3.setAxis, Vec3.dot,
      Vec3.scale, Vec3.add_def, Vec3.sub_def, min_def, max_def, abs_lt,
      List.foldl]

theorem pushout_up (b o cmin cmax : ℚ) (hwf : cmin ≤ cmax)
    (ho : o = min b cmax - max (b - 1.6) cmin)
    (h1 : cmin ≤ b - 1.6) (h2 : cmax ≤ b) :
    min (b + o) cmax - max (b + o - 1.6) cmin = 0 := by
  rw [ho, min_eq_right h2, max_eq_left h1,
    min_eq_right (by linarith), max_eq_left (by linarith)]
  ring

theorem pushout_down (b o cmin cmax : ℚ) (hwf : cmin ≤ cmax)
    (ho : o = min b cmax - max (b - 1.6) cmin)
    (h1 : b - 1.6 ≤ cmin) (h2 : b ≤ cmax) :
    min (b - o) cmax - max (b - o - 1.6) cmin = 0 := by
  rw [ho, min_eq_left h2, max_eq_right h1,
    min_eq_left (by linarith), max_eq_right (by linarith)]
  ring

/-- Claim C5 (amended): the separation invariant holds per resolution,
under a straddle condition, for both movers.  (1) Ball: for a sub-step
against a single intersecting collider whose face the ball's box
straddles on the push side of the resolved axis, the push-out leaves
exactly zero overlap on that axis — within the claimed 1e-3.  (2)
Player: each per-axis hard-stop (collider intersecting, not
epsilon-skipped, positive overlap on the processed axis, box straddling
the collider's face on the push side) likewise leaves exactly zero
overlap on the resolved axis.  (3) That per-axis separation survives the
rest of the player's frame: a later pass on a different axis preserves
the coordinate, hence the overlap, on the resolved axis.  Without the
straddle and single-collider conditions the invariant fails, as the
counterexample shows: deep containment and stale-box multi-collider
processing leave penetration far above 1e-3. -/
theorem mover_pushout_separates :
    (∀ (dt : ℚ) (p v : Vec3 ℚ) (cb : Box) (pp : Vec3 ℚ),
      pp = p + Vec3.scale dt (ballVelAfterForces dt v) →
      ∀ ax : Axis, ax = selectBallAxis (ballBoxAround pp) cb →
      intersectsBox (ballBoxAround pp) cb →
      cb.bmin.axisGet ax ≤ cb.bmax.axisGet ax →
      ((signQ (pp.axisGet ax - boxCenterAxis cb ax) = 1 ∧
        cb.bmin.axisGet ax ≤ (ballBoxAround pp).bmin.axisGet ax ∧
        cb.bmax.axisGet ax ≤ (ballBoxAround pp).bmax.axisGet ax) ∨
       (signQ (pp.axisGet ax - boxCenterAxis cb ax) = -1 ∧
        (ballBoxAround pp).bmin.axisGet ax ≤ cb.bmin.axisGet ax ∧
        (ballBoxAround pp).bmax.axisGet ax ≤ cb.bmax.axisGet ax)) →
      overlapAxis ax (ballBoxAround (ballStep dt [cb] p v).1) cb = 0 ∧
      overlapAxis ax (ballBoxAround (ballStep dt [cb] p v).1) cb ≤ 1/1000) ∧
    (∀ (axis : Axis) (cb : Box) (st : PlayerState),
      intersectsBox (playerBoxOf st.pos) cb →
      ¬(|overlapAxis Axis.X (playerBoxOf st.pos) cb| < 1/1000 ∨
        |overlapAxis Axis.Y (playerBoxOf st.pos) cb| < 1/1000 ∨
        |overlapAxis Axis.Z (playerBoxOf st.pos) cb| < 1/1000) →
      0 < overlapAxis axis (playerBoxOf st.pos) cb →
      cb.bmin.axisGet axis ≤ cb.bmax.axisGet axis →
      ((playerPushSign axis cb st = 1 ∧
        cb.bmin.axisGet axis ≤ (playerBoxOf st.pos).bmin.axisGet axis ∧
        cb.bmax.axisGet axis ≤ (playerBoxOf st.pos).bmax.axisGet axis) ∨
       (playerPushSign axis cb st = -1 ∧
        (playerBoxOf st.pos).bmin.axisGet axis ≤ cb.bmin.axisGet axis ∧
        (playerBoxOf st.pos).bmax.axisGet axis ≤ cb.bmax.axisGet axis)) →
      overlapAxis axis
        (playerBoxOf (resolvePlayerCollider axis cb st).pos) cb = 0 ∧
      overlapAxis axis
        (playerBoxOf (resolvePlayerCollider axis cb st).pos) cb ≤ 1/1000) ∧
    (∀ (axis : Axis) (cb : Box) (cols2 : List Box) (axis2 : Axis)
      (st2 : PlayerState), axis ≠ axis2 →
      overlapAxis axis
        (playerBoxOf (resolveCollisionsQ cols2 axis2 st2).pos) cb =
      overlapAxis axis (playerBoxOf st2.pos) cb) := by
  refine ⟨?_, ?_, ?_⟩
  · intro dt p v cb pp hpp ax hax hint hwf hstr
    have hstep : (ballStep dt [cb] p v).1 =
        pp.setAxis (selectBallAxis (ballBoxAround pp) cb)
          (pp.axisGet (selectBallAxis (ballBoxAround pp) cb) +
            overlapAxis (selectBallAxis (ballBoxAround pp) cb)
                (ballBoxAround pp) cb *
              signQ (pp.axisGet (selectBallAxis (ballBoxAround pp) cb) -
                boxCenterAxis cb (selectBallAxis (ballBoxAround pp) cb))) := by
      rw [hpp]
      simp only [ballStep, List.foldl_cons, List.foldl_nil]
      rw [if_pos (by rw [hpp] at hint; exact hint)]
      exact resolveBallCollision_fst dt _ cb _ _
    rw [← hax] at hstep
    have hmain : overlapAxis ax (ballBoxAround (ballStep dt [cb] p v).1) cb = 0 := by
      rw [hstep]
      cases ax with
      | X =>
        simp only [overlapAxis, ballBoxAround, Vec3.setAxis, Vec3.axisGet] at hstr hwf ⊢
        exact pushout_scalar pp.x
          (min (pp.x + 0.15) cb.bmax.x - max (pp.x - 0.15) cb.bmin.x)
          (signQ (pp.x - boxCenterAxis cb Axis.X)) cb.bmin.x cb.bmax.x 0.15
          hwf (by norm_num) rfl hstr
      | Y =>
        simp only [overlapAxis, ballBoxAround, Vec3.setAxis, Vec3.axisGet] at hstr hwf ⊢
        exact pushout_scalar pp.y
          (min (pp.y + 0.15) cb.bmax.y - max (pp.y - 0.15) cb.bmin.y)
          (signQ (pp.y - boxCenterAxis cb Axis.Y)) cb.bmin.y cb.bmax.y 0.15
          hwf (by norm_num) rfl hstr
      | Z =>
        simp only [overlapAxis, ballBoxAround, Vec3.setAxis, Vec3.axisGet] at hstr hwf ⊢
        exact pushout_scalar pp.z
          (min (pp.z + 0.15) cb.bmax.z - max (pp.z - 0.15) cb.bmin.z)
          (signQ (pp.z - boxCenterAxis cb Axis.Z)) cb.bmin.z cb.bmax.z 0.15
          hwf (by norm_num) rfl hstr
    exact ⟨hmain, by rw [hmain]; norm_num⟩
  · intro axis cb st hint hskip hpos hwf hstr
    cases axis with
    | X =>
      simp only [playerPushSign, playerBoxOf, Vec3.axisGet] at hstr
      simp only [Vec3.axisGet] at hwf
      have hmain : overlapAxis Axis.X
          (playerBoxOf (resolvePlayerCollider Axis.X cb st).pos) cb = 0 := by
        simp only [resolvePlayerCollider]
        rw [if_pos hint, if_neg hskip, if_pos hpos, overlapAxis_X_playerBox]
        exact pushout_scalar st.pos.x
          (overlapAxis Axis.X (playerBoxOf st.pos) cb)
          (if st.vel.x ≠ 0 then -signQ st.vel.x
           else signQ (st.pos.x - boxCenterAxis cb Axis.X))
          cb.bmin.x cb.bmax.x 0.3 hwf (by norm_num)
          (overlapAxis_X_playerBox st.pos cb) hstr
      exact ⟨hmain, by rw [hmain]; norm_num⟩
    | Z =>
      simp only [playerPushSign, playerBoxOf, Vec3.axisGet] at hstr
      simp only [Vec3.axisGet] at hwf
      have hmain : overlapAxis Axis.Z
          (playerBoxOf (resolvePlayerCollider Axis.Z cb st).pos) cb = 0 := by
        simp only [resolvePlayerCollider]
        rw [if_pos hint, if_neg hskip, if_pos hpos, overlapAxis_Z_playerBox]
        exact pushout_scalar st.pos.z
          (overlapAxis Axis.Z (playerBoxOf st.pos) cb)
          (if st.vel.z ≠ 0 then -signQ st.vel.z
           else signQ (st.pos.z - boxCenterAxis cb Axis.Z))
          cb.bmin.z cb.bmax.z 0.3 hwf (by norm_num)
          (overlapAxis_Z_playerBox st.pos cb) hstr
      exact ⟨hmain, by rw [hmain]; norm_num⟩
    | Y =>
      simp only [playerPushSign, playerBoxOf, Vec3.axisGet] at hstr
      simp only [Vec3.axisGet] at hwf
      by_cases hneg : st.vel.y < 0
      · rcases hstr with ⟨h1, hA, hB⟩ | ⟨h1, hA, hB⟩
        · have hmain : overlapAxis Axis.Y
              (playerBoxOf (resolvePlayerCollider Axis.Y cb st).pos) cb = 0 := by
            simp only [resolvePlayerCollider]
            rw [if_pos hint, if_neg hskip, if_pos hpos, if_pos hneg,
              overlapAxis_Y_playerBox]
            exact pushout_up st.pos.y
              (overlapAxis Axis.Y (playerBoxOf st.pos) cb)
              cb.bmin.y cb.bmax.y hwf (overlapAxis_Y_playerBox st.pos cb) hA hB
          exact ⟨hmain, by rw [hmain]; norm_num⟩
        · rw [if_pos hneg] at h1
          norm_num at h1
      · by_cases hup : 0 < st.vel.y
        · rcases hstr with ⟨h1, hA, hB⟩ | ⟨h1, hA, hB⟩
          · rw [if_neg hneg, if_pos hup] at h1
            norm_num at h1
          · have hmain : overlapAxis Axis.Y
                (playerBoxOf (resolvePlayerCollider Axis.Y cb st).pos) cb = 0 := by
              simp only [resolvePlayerCollider]
              rw [if_pos hint, if_neg hskip, if_pos hpos, if_neg hneg,
                if_pos hup, overlapAxis_Y_playerBox]
              exact pushout_down st.pos.y
                (overlapAxis Axis.Y (playerBoxOf st.pos) cb)
                cb.bmin.y cb.bmax.y hwf (overlapAxis_Y_playerBox st.pos cb)
                hA hB
            exact ⟨hmain, by rw [hmain]; norm_num⟩
        · rcases hstr with ⟨h1, hA, hB⟩ | ⟨h1, hA, hB⟩
          · have hmain : overlapAxis Axis.Y
                (playerBoxOf (resolvePlayerCollider Axis.Y cb st).pos) cb = 0 := by
              simp only [resolvePlayerCollider]
              rw [if_pos hint, if_neg hskip, if_pos hpos, if_neg hneg,
                if_neg hup, overlapAxis_Y_playerBox]
              exact pushout_up st.pos.y
                (overlapAxis Axis.Y (playerBoxOf st.pos) cb)
                cb.bmin.y cb.bmax.y hwf (overlapAxis_Y_playerBox st.pos cb)
                hA hB
            exact ⟨hmain, by rw [hmain]; norm_num⟩
          · rw [if_neg hneg, if_neg hup] at h1
            norm_num at h1
  · intro axis cb cols2 axis2 st2 hne
    exact overlapAxis_playerBox_congr axis cb _ _
      ((resolveCollisionsQ_offAxis axis2 cols2 st2).1 axis hne).1

/-- Witness for C5 (amended): a ball landing on the top face of a cube is
pushed out to exactly zero overlap on the resolved vertical axis; a
descending player landing on the same cube is hard-stopped to exactly
zero overlap on the vertical axis; and a subsequent x pass leaves a
player's vertical overlap with a collider unchanged. -/
theorem mover_pushout_separates_witness :
    overlapAxis Axis.Y
      (ballBoxAround
        (ballStep (1/100) [⟨⟨-1, -1, -1⟩, ⟨1, 1, 1⟩⟩] ⟨0, 1.1, 0⟩
          ⟨0, 0, 0⟩).1)
      ⟨⟨-1, -1, -1⟩, ⟨1, 1, 1⟩⟩ = 0 ∧
    overlapAxis Axis.Y
      (playerBoxOf
        (resolvePlayerCollider Axis.Y ⟨⟨-1, -1, -1⟩, ⟨1, 1, 1⟩⟩
          ⟨⟨0, 1.5, 0⟩, ⟨0, -1, 0⟩, false⟩).pos)
      ⟨⟨-1, -1, -1⟩, ⟨1, 1, 1⟩⟩ = 0 ∧
    overlapAxis Axis.Y
      (playerBoxOf
        (resolveCollisionsQ [⟨⟨-1, -1, -1⟩, ⟨1, 1, 1⟩⟩] Axis.X
          ⟨⟨5, 1.5, 5⟩, ⟨0, 0, 0⟩, false⟩).pos)
      ⟨⟨-1, -1, -1⟩, ⟨1, 1, 1⟩⟩ =
      overlapAxis Axis.Y (playerBoxOf (⟨5, 1.5, 5⟩ : Vec3 ℚ))
        ⟨⟨-1, -1, -1⟩, ⟨1, 1, 1⟩⟩ := by
  refine ⟨(mover_pushout_separates.1 (1/100) ⟨0, 1.1, 0⟩ ⟨0, 0, 0⟩
      ⟨⟨-1, -1, -1⟩, ⟨1, 1, 1⟩⟩ ⟨0, 1.0985, 0⟩ ?_ Axis.Y ?_ ?_ ?_ ?_).1,
    (mover_pushout_separates.2.1 Axis.Y ⟨⟨-1, -1, -1⟩, ⟨1, 1, 1⟩⟩
      ⟨⟨0, 1.5, 0⟩, ⟨0, -1, 0⟩, false⟩ ?_ ?_ ?_ ?_ ?_).1,
    mover_pushout_separates.2.2 Axis.Y ⟨⟨-1, -1, -1⟩, ⟨1, 1, 1⟩⟩
      [⟨⟨-1, -1, -1⟩, ⟨1, 1, 1⟩⟩] Axis.X ⟨⟨5, 1.5, 5⟩, ⟨0, 0, 0⟩, false⟩
      (fun h => nomatch h)⟩
  · norm_num [Vec3.scale, ballVelAfterForces, Vec3.add_def]
  · norm_num [selectBallAxis, overlapAxis, ballBoxAround, Vec3.axisGet,
      min_def, max_def]
  · norm_num [intersectsBox, ballBoxAround]
  · norm_num [Vec3.axisGet]
  · left
    refine ⟨?_, ?_, ?_⟩ <;>
      norm_num [signQ, boxCenterAxis, ballBoxAround, Vec3.axisGet]
  · norm_num [intersectsBox, playerBoxOf]
  · norm_num [overlapAxis, playerBoxOf, Vec3.axisGet, min_def, max_def,
      abs_lt]
  · norm_num [overlapAxis, playerBoxOf, Vec3.axisGet, min_def, max_def]
  · norm_num [Vec3.axisGet]
  · left
    refine ⟨?_, ?_, ?_⟩ <;>
      norm_num [playerPushSign, playerBoxOf, Vec3.axisGet]
